import Mathlib

/-!
Verification of the Iris-Classic-Go firmware core (app_main.py) against its
natural-language specification.  The Python code is shallowly embedded:
strings are modelled as List Char, Python floats as exact rationals
(Python round is round-half-even; on the integer inputs that reach it here
no representation error can change a rounding decision), machine ticks as
unbounded integers (utime.ticks arithmetic is modelled by ordinary integer
arithmetic), and fallible code by Option / Except.
-/

set_option maxRecDepth 4000

namespace IrisClassic

/-! ## String-scanning primitives (app_main.py `_find_int_after`, `_find_str_after`) -/

/-- Index of the first position of l at which key is a prefix (Python
str.find relative to the scanned suffix). -/
def subIdx (key : List Char) : List Char → Option Nat
  | [] => if key = [] then some 0 else none
  | c :: rest =>
    if key.isPrefixOf (c :: rest) then some 0
    else (subIdx key rest).map (· + 1)

/-- Python s.find(key, start): absolute index of the first occurrence of key
at position start or later, or none for -1. -/
def findFrom (s key : List Char) (start : Nat) : Option Nat :=
  (subIdx key (s.drop start)).map (· + start)

/-- The whitespace set " \t\r\n" accepted by the token scanners. -/
def isScanWs (c : Char) : Bool :=
  c = ' ' || c = '\t' || c = '\r' || c = '\n'

/-- Value of a nonempty digit string, most significant first. -/
def natOfDigits (ds : List Char) : Nat :=
  ds.foldl (fun a c => a * 10 + (c.toNat - 48)) 0

/-- app_main.py `_find_int_after`: find key from start, skip " \t\r\n",
accept an optional minus sign and one or more digits; a lone minus or no
digit at all fails.  Returns the integer and the offset just past it. -/
def _find_int_after (s key : List Char) (start : Nat) : Option (Int × Nat) :=
  match findFrom s key start with
  | none => none
  | some i0 =>
    let i := i0 + key.length
    let iw := i + ((s.drop i).takeWhile isScanWs).length
    match s.drop iw with
    | '-' :: t2 =>
      let ds := t2.takeWhile Char.isDigit
      if ds = [] then none
      else some (-(natOfDigits ds : Int), iw + 1 + ds.length)
    | t2 =>
      let ds := t2.takeWhile Char.isDigit
      if ds = [] then none
      else some ((natOfDigits ds : Int), iw + ds.length)

/-- app_main.py `_find_str_after`: find key from start, skip " \t\r\n",
then take the text between the next two double quotes. -/
def _find_str_after (s key : List Char) (start : Nat) : Option (List Char × Nat) :=
  match findFrom s key start with
  | none => none
  | some i0 =>
    let i := i0 + key.length
    let iw := i + ((s.drop i).takeWhile isScanWs).length
    match findFrom s ['\"'] iw with
    | none => none
    | some q1 =>
      match findFrom s ['\"'] (q1 + 1) with
      | none => none
      | some q2 => some ((s.drop (q1 + 1)).take (q2 - (q1 + 1)), q2 + 1)

/-! ## Unit conversion and the reading parser -/

/-- Python round-half-even of a rational to an integer (the rounding used
by round() and by string formatting). -/
def roundHalfEven (q : ℚ) : Int :=
  let f := ⌊q⌋
  let r := q - (f : ℚ)
  if r < 1/2 then f
  else if 1/2 < r then f + 1
  else if f % 2 = 0 then f else f + 1

/-- Python round(x, 1). -/
def pyRound1 (q : ℚ) : ℚ := ((roundHalfEven (q * 10) : Int) : ℚ) / 10

/-- Configured-unit test: str(DISPLAY_UNITS).lower() == "mgdl". -/
def mgdlMode (units : List Char) : Bool :=
  units.map Char.toLower = "mgdl".toList

/-- app_main.py `mgdl_to_units`: device-native passthrough in mgdl mode,
otherwise divide by 18.0 and round to one decimal. -/
def mgdl_to_units (units : List Char) (valMgdl : Int) : ℚ :=
  if mgdlMode units then (valMgdl : ℚ) else pyRound1 ((valMgdl : ℚ) / 18)

/-- app_main.py `direction_to_arrow` (None and "" fall back to "NONE",
an unknown direction maps to the empty string). -/
def direction_to_arrow (d : Option (List Char)) : List Char :=
  let key : List Char :=
    match d with
    | none => "NONE".toList
    | some s => if s = [] then "NONE".toList else s
  if key = "Flat".toList then "B".toList
  else if key = "SingleUp".toList then "G".toList
  else if key = "DoubleUp".toList then "GG".toList
  else if key = "SingleDown".toList then "H".toList
  else if key = "DoubleDown".toList then "HH".toList
  else if key = "FortyFiveUp".toList then "D".toList
  else if key = "FortyFiveDown".toList then "F".toList
  else if key = "NOT COMPUTABLE".toList then "--".toList
  else if key = "NONE".toList then "--".toList
  else []

def sgvKey : List Char := "\"sgv\":".toList
def millsKey : List Char := "\"mills\":".toList
def dateKey : List Char := "\"date\":".toList
def directionKey : List Char := "\"direction\":".toList

/-- The Reading record built by the parser. -/
structure Reading where
  bg : ℚ
  time_ms : Int
  direction : List Char
  arrow : List Char
  delta : Option ℚ
deriving DecidableEq, Repr

/-- app_main.py `parse_entries_from_text`, token-scanning the response body:
first "sgv" integer (mandatory), then "mills" falling back to "date", the
"direction" string, and a second "sgv" integer for the delta.  The delta is
divided by 18.0 in non-mgdl mode without rounding. -/
def parse_entries_from_text (units txt : List Char) : Option Reading :=
  if txt = [] then none
  else
    match _find_int_after txt sgvKey 0 with
    | none => none
    | some (curSgv, p) =>
      let mills : Option Int :=
        match _find_int_after txt millsKey p with
        | some (m, _) => some m
        | none => (_find_int_after txt dateKey p).map Prod.fst
      let dir : Option (List Char) := (_find_str_after txt directionKey p).map Prod.fst
      let prev : Option Int := (_find_int_after txt sgvKey p).map Prod.fst
      let deltaUnits : Option ℚ :=
        match prev with
        | none => none
        | some pv =>
          let diff : ℚ := (curSgv : ℚ) - (pv : ℚ)
          if mgdlMode units then some diff else some (diff / 18)
      some
        { bg := mgdl_to_units units curSgv
          time_ms := match mills with | none => 0 | some m => m
          direction := match dir with
            | none => "NONE".toList
            | some s => if s = [] then "NONE".toList else s
          arrow := direction_to_arrow dir
          delta := deltaUnits }

/-! ## Alert engine -/

def SEVERE_LOW_THRESHOLD : ℚ := 4
def MILD_LOW_THRESHOLD : ℚ := 5
def BUZZER_SNOOZE_MS : Int := 10 * 60 * 1000
def MILD_COOLDOWN_MS : Int := 10 * 60 * 1000

/-- utime.ticks_diff modelled on unbounded integers. -/
def ticks_diff (a b : Int) : Int := a - b

/-- utime.ticks_add modelled on unbounded integers. -/
def ticks_add (a b : Int) : Int := a + b

/-- The buzzer-related globals of app_main.py.  buz is the output pin value
(the buzzer is active-low: 1 means inactive). -/
structure AlertState where
  buzzer_mode : Nat
  buzzer_snooze_until : Int
  last_mild_beep_time : Int
  buz : Nat
deriving DecidableEq, Repr

/-- app_main.py `check_glucose_alerts`: snooze forces mode 0, then severe
(mode 1) at or below 4, mild (mode 2) at or below 5, otherwise 0.  A None
reading leaves the state untouched. -/
def check_glucose_alerts (bgValue : Option ℚ) (now : Int) (st : AlertState) : AlertState :=
  match bgValue with
  | none => st
  | some v =>
    if ticks_diff now st.buzzer_snooze_until < 0 then { st with buzzer_mode := 0 }
    else if v ≤ SEVERE_LOW_THRESHOLD then { st with buzzer_mode := 1 }
    else if v ≤ MILD_LOW_THRESHOLD then { st with buzzer_mode := 2 }
    else { st with buzzer_mode := 0 }

/-- app_main.py `request_buzzer_stop`: a no-op while no alert is active,
otherwise silence the pin, force mode 0, snooze for 10 minutes and restart
the mild cooldown clock. -/
def request_buzzer_stop (now : Int) (st : AlertState) : AlertState :=
  if st.buzzer_mode = 0 then st
  else
    { buzzer_mode := 0
      buzzer_snooze_until := ticks_add now BUZZER_SNOOZE_MS
      last_mild_beep_time := now
      buz := 1 }

/-- The condition under which one iteration of app_main.py
`task_buzzer_driver` starts the mild three-pulse pattern: mode 2, not
snoozed, and the 10-minute cooldown elapsed. -/
def mild_fire_condition (st : AlertState) (now : Int) : Prop :=
  st.buzzer_mode = 2 ∧
  ¬ ticks_diff now st.buzzer_snooze_until < 0 ∧
  MILD_COOLDOWN_MS ≤ ticks_diff now st.last_mild_beep_time

instance (st : AlertState) (now : Int) : Decidable (mild_fire_condition st now) := by
  unfold mild_fire_condition; infer_instance

/-! ## The count-parameter rewrite (app_main.py `ensure_count2`) -/

def countKey : List Char := "count=".toList

/-- Drop a leading (possibly empty) run of decimal digits. -/
def dropDigits : List Char → List Char
  | [] => []
  | c :: rest => if c.isDigit then dropDigits rest else c :: rest

/-- True when the character at index k exists and is a decimal digit. -/
def digitAt (l : List Char) (k : Nat) : Bool :=
  match l.drop k with
  | c :: _ => c.isDigit
  | [] => false

/-- The regex match condition at the head of l: the literal count= followed
by at least one digit. -/
def matchAt (l : List Char) : Bool :=
  decide (l.take 6 = countKey) && digitAt l 6

/-- Fuel-indexed engine of Python re.sub over the pattern count= followed by
one or more digits, with replacement count=2: scan left to right and on a
match emit the replacement and resume after the maximal digit run. -/
def countSubF : Nat → List Char → List Char
  | 0, l => l
  | _ + 1, [] => []
  | f + 1, c :: rest =>
    if matchAt (c :: rest) then
      "count=2".toList ++ countSubF f (dropDigits (rest.drop 5))
    else c :: countSubF f rest

/-- re.sub of count= plus digits by count=2 (the fuel l.length suffices
because every step consumes at least one character). -/
def countSub (l : List Char) : List Char := countSubF l.length l

/-- app_main.py `ensure_count2`: when the literal substring count= occurs,
rewrite every count=digits occurrence to count=2; otherwise append count=2
with the joiner chosen by the presence of a question mark. -/
def ensure_count2 (endpoint : List Char) : List Char :=
  if (subIdx countKey endpoint).isSome then countSub endpoint
  else if (subIdx ['?'] endpoint).isSome then endpoint ++ '&' :: "count=2".toList
  else endpoint ++ '?' :: "count=2".toList

/-! ## DataFetchClient (app_main.py `fetch_ns_text` and `_one_request`) -/

/-- The whitespace stripped by Python str.strip(). -/
def pyStripWs (c : Char) : Bool :=
  c = ' ' || c = '\t' || c = '\n' || c = '\r' || c = '\x0b' || c = '\x0c'

/-- Python str.strip(). -/
def pyStrip (l : List Char) : List Char :=
  ((l.dropWhile pyStripWs).reverse.dropWhile pyStripWs).reverse

/-- Python int(s) on an optional sign followed by digits; none models the
raised ValueError. -/
def parseInt10 : List Char → Option Int
  | [] => none
  | '-' :: ds =>
    if ds ≠ [] ∧ ds.all Char.isDigit then some (-(natOfDigits ds : Int)) else none
  | '+' :: ds =>
    if ds ≠ [] ∧ ds.all Char.isDigit then some ((natOfDigits ds : Int)) else none
  | ds => if ds.all Char.isDigit then some ((natOfDigits ds : Int)) else none

/-- Python s.split on the two-character separator CR LF. -/
def splitCRLF : List Char → List (List Char)
  | [] => [[]]
  | '\r' :: '\n' :: rest => [] :: splitCRLF rest
  | c :: rest =>
    match splitCRLF rest with
    | [] => [[c]]
    | l :: ls => (c :: l) :: ls

/-- Python s.split on a one-character separator. -/
def splitChar (sep : Char) : List Char → List (List Char)
  | [] => [[]]
  | c :: rest =>
    if c = sep then [] :: splitChar sep rest
    else
      match splitChar sep rest with
      | [] => [[c]]
      | l :: ls => (c :: l) :: ls

/-- Python dict assignment d at k set to v. -/
def hdrInsert : List (List Char × List Char) → List Char → List Char →
    List (List Char × List Char)
  | [], k, v => [(k, v)]
  | (k0, v0) :: t, k, v =>
    if k0 = k then (k, v) :: t else (k0, v0) :: hdrInsert t k v

/-- Python dict get. -/
def hdrGet (m : List (List Char × List Char)) (k : List Char) : Option (List Char) :=
  (m.find? (fun p => decide (p.1 = k))).map Prod.snd

/-- Status-code extraction of app_main.py `_one_request`: first CRLF line,
split on single spaces, int of the second part; any failure leaves None. -/
def statusOf (head : List Char) : Option Int :=
  let statusLine := (splitCRLF head).headD []
  let parts := splitChar ' ' statusLine
  if 2 ≤ parts.length then parseInt10 (parts.getD 1 []) else none

/-- Header parsing of app_main.py `_one_request`: for each line containing
a colon, key is the stripped lowercased part before the first colon, value
the stripped remainder. -/
def parseHeaderLines (lines : List (List Char)) : List (List Char × List Char) :=
  lines.foldl
    (fun m line =>
      match subIdx [':'] line with
      | none => m
      | some i =>
        hdrInsert m ((pyStrip (line.take i)).map Char.toLower)
          (pyStrip (line.drop (i + 1))))
    []

/-- app_main.py `_parse_url`: (secure, host, port, path); Except.error
models the ValueError raised for a missing http/https scheme or a
non-integer port (this raise sits OUTSIDE the try of `_one_request`). -/
def _parse_url (u : List Char) : Except Unit (Bool × List Char × Int × List Char) :=
  let parseRest := fun (secure : Bool) (rest : List Char) (defaultPort : Int) =>
    let hp : List Char × List Char :=
      match subIdx ['/'] rest with
      | some idx => (rest.take idx, '/' :: rest.drop (idx + 1))
      | none => (rest, ['/'])
    match subIdx [':'] hp.1 with
    | some ci =>
      match parseInt10 (hp.1.drop (ci + 1)) with
      | some port => Except.ok (secure, hp.1.take ci, port, hp.2)
      | none => Except.error ()
    | none => Except.ok (secure, hp.1, defaultPort, hp.2)
  if "http://".toList.isPrefixOf u then parseRest false (u.drop 7) 80
  else if "https://".toList.isPrefixOf u then parseRest true (u.drop 8) 443
  else Except.error ()

/-- Behaviour of the environment for one socket request: sockFail covers
getaddrinfo/connect/TLS/send failures (all caught, yielding a null
result); chunks are the successive recv(256) results; closedAfter tells
whether after the chunks the peer closes (recv returns empty) or the next
recv raises (receive timeout); budget is the number of loop iterations
before the 1.2 second receive budget expires. -/
structure ReqBehavior where
  sockFail : Bool
  chunks : List (List Char)
  closedAfter : Bool
  budget : Nat

/-- The bounded receive loop of app_main.py `_one_request`: stop when the
budget expires, when the peer closes, or when the next chunk would push the
buffer past the cap, in which case append only what fits; none models a
recv exception. -/
def recvLoop : List (List Char) → Nat → Bool → Nat → List Char → Option (List Char)
  | _, 0, _, _, buf => some buf
  | [], _ + 1, closed, _, buf => if closed then some buf else none
  | ch :: rest, b + 1, closed, cap, buf =>
    if ch = [] then some buf
    else if cap < buf.length + ch.length then some (buf ++ ch.take (cap - buf.length))
    else recvLoop rest b closed cap (buf ++ ch)

def CRLFCRLF : List Char := ['\r', '\n', '\r', '\n']

/-- app_main.py `_one_request`: parse the URL (a ValueError propagates),
receive under cap maxBody + 1024, split header and body at the first blank
line, extract status and headers; bytes are modelled as characters and the
utf-8 decode as the identity on them. -/
def _one_request (beh : ReqBehavior) (u : List Char) (maxBody : Nat) :
    Except Unit (Option (Option Int × List (List Char × List Char) × List Char)) :=
  match _parse_url u with
  | Except.error e => Except.error e
  | Except.ok _ =>
    if beh.sockFail then Except.ok none
    else
      match recvLoop beh.chunks beh.budget beh.closedAfter (maxBody + 1024) [] with
      | none => Except.ok none
      | some raw =>
        match subIdx CRLFCRLF raw with
        | none => Except.ok none
        | some sep =>
          let head := raw.take sep
          let body := (raw.drop (sep + 4)).take maxBody
          Except.ok (some (statusOf head, parseHeaderLines ((splitCRLF head).drop 1), body))

/-- The environment a fetch cycle runs against: the WLAN checks, the free
memory, and one behaviour per socket request (at most two are made). -/
structure NetEnv where
  wlanFails : Bool
  wlanActive : Bool
  wlanConnected : Bool
  memFree : Nat
  req1 : ReqBehavior
  req2 : ReqBehavior

deriving instance DecidableEq for Except

instance : DecidableEq (Option Int × List (List Char × List Char) × List Char) :=
  instDecidableEqProd

instance : DecidableEq (Option (Option Int × List (List Char × List Char) × List Char)) :=
  fun a b => Option.instDecidableEq a b

/-- Result of a fetch together with the URLs handed to `_one_request`. -/
structure FetchOut where
  result : Except Unit (Option (List Char))
  requests : List (List Char)
deriving DecidableEq

def redirectStatus (s : Int) : Bool :=
  decide (s = 301) || decide (s = 302) || decide (s = 303) ||
    decide (s = 307) || decide (s = 308)

/-- app_main.py `fetch_ns_text` with the environment made explicit: WLAN
check, blank-URL check, low-memory check, first request, at most one
redirect follow-up, terminal-status and empty-body checks. -/
def fetch_ns_text (nsUrl apiEndpoint : List Char) (env : NetEnv) : FetchOut :=
  if env.wlanFails then ⟨Except.ok none, []⟩
  else if !(env.wlanActive && env.wlanConnected) then ⟨Except.ok none, []⟩
  else if nsUrl = [] then ⟨Except.ok none, []⟩
  else
    let url := nsUrl ++ ensure_count2 apiEndpoint
    if env.memFree < 20000 then ⟨Except.ok none, []⟩
    else
      match _one_request env.req1 url 2048 with
      | Except.error e => ⟨Except.error e, [url]⟩
      | Except.ok none => ⟨Except.ok none, [url]⟩
      | Except.ok (some (none, _, _)) => ⟨Except.ok none, [url]⟩
      | Except.ok (some (some s1, hdrs1, body1)) =>
        if redirectStatus s1 then
          match hdrGet hdrs1 "location".toList with
          | none => ⟨Except.ok none, [url]⟩
          | some loc =>
            if loc = [] then ⟨Except.ok none, [url]⟩
            else
              match _one_request env.req2 loc 2048 with
              | Except.error e => ⟨Except.error e, [url, loc]⟩
              | Except.ok none => ⟨Except.ok none, [url, loc]⟩
              | Except.ok (some (none, _, _)) => ⟨Except.ok none, [url, loc]⟩
              | Except.ok (some (some s2, _, body2)) =>
                if s2 ≠ 200 then ⟨Except.ok none, [url, loc]⟩
                else if body2 = [] then ⟨Except.ok none, [url, loc]⟩
                else ⟨Except.ok (some body2), [url, loc]⟩
        else if s1 ≠ 200 then ⟨Except.ok none, [url]⟩
        else if body1 = [] then ⟨Except.ok none, [url]⟩
        else ⟨Except.ok (some body1), [url]⟩

/-! ## ScreenRenderer (app_main.py partial-update draw section) -/

def YELLOW : Nat := 0xFFE0
def RED : Nat := 0xF800
def GREEN : Nat := 0x07E0
def BLACK : Nat := 0x0000
def WHITE : Nat := 0xFFFF

/-- A rectangle (x, y, w, h) in panel coordinates. -/
structure Rect where
  x : Int
  y : Int
  w : Int
  h : Int
deriving DecidableEq, Repr

/-- The observable panel effects of a render pass. -/
inductive Ev where
  | fill (color : Nat)
  | fillRect (x y w h : Int) (color : Nat)
  | text (x y : Int) (s : List Char) (color : Nat)
  | bigText (x y : Int) (s : List Char) (color : Nat)
  | flushFull
  | flushRect (x y w h : Int)
deriving DecidableEq, Repr

/-- Abstract font metrics of a CWriter: stringlen and font.height(). -/
structure Writer where
  strLen : List Char → Int
  fheight : Int

/-- Abstract big-digit glyph table: big_digits.GLYPHS widths and HEIGHT. -/
structure BigFont where
  glyphW : Char → Option Int
  height : Int

/-- Panel dimensions and partial-flush capability (hasattr show_rect). -/
structure Panel where
  width : Int
  height : Int
  hasShowRect : Bool

/-- app_main.py `_union_rect` on two present rectangles. -/
def unionR (a b : Rect) : Rect :=
  let ax2 := a.x + a.w
  let ay2 := a.y + a.h
  let bx2 := b.x + b.w
  let by2 := b.y + b.h
  let ux1 := if a.x < b.x then a.x else b.x
  let uy1 := if a.y < b.y then a.y else b.y
  let ux2 := if ax2 > bx2 then ax2 else bx2
  let uy2 := if ay2 > by2 then ay2 else by2
  ⟨ux1, uy1, ux2 - ux1, uy2 - uy1⟩

/-- app_main.py `_union_rect` (a missing rectangle is falsy). -/
def _union_rect : Option Rect → Option Rect → Option Rect
  | none, r2 => r2
  | r1, none => r1
  | some r1, some r2 => some (unionR r1 r2)

/-- app_main.py `_clear_rect`: clip to the panel, fill unless empty. -/
def _clear_rect (p : Panel) (r : Rect) (color : Nat) : List Ev :=
  let xw : Int × Int := if r.x < 0 then (0, r.w + r.x) else (r.x, r.w)
  let yh : Int × Int := if r.y < 0 then (0, r.h + r.y) else (r.y, r.h)
  let w := if p.width < xw.1 + xw.2 then p.width - xw.1 else xw.2
  let h := if p.height < yh.1 + yh.2 then p.height - yh.1 else yh.2
  if w ≤ 0 ∨ h ≤ 0 then [] else [Ev.fillRect xw.1 yh.1 w h color]

/-- app_main.py `_bbox_text`. -/
def _bbox_text (wr : Writer) (text : List Char) (x y pad : Int) : Rect :=
  ⟨x - pad, y - pad, wr.strLen text + pad * 2, wr.fheight + pad * 2⟩

/-- app_main.py class ScreenState: cached values per renderable field. -/
structure ScreenState where
  age_text : Option (List Char)
  age_color : Option Nat
  bg_text : Option (List Char)
  bg_color : Option Nat
  arrow_text : Option (List Char)
  arrow_color : Option Nat
  delta_text : Option (List Char)
  heart_on : Option Bool
  batt_x : Option (List Char)
  batt_pos : Option (Int × Int)
  last_have_data : Bool
deriving DecidableEq, Repr

/-- app_main.py `_draw_age_if_changed` under an open batch: returns the
emitted events, the updated batch dirty rectangle and the updated state. -/
def _draw_age_if_changed (p : Panel) (w : Writer) (newText : List Char)
    (newColor : Nat) (st : ScreenState) (yAge : Int) (dirty : Option Rect) :
    List Ev × Option Rect × ScreenState :=
  let newW := w.strLen newText
  let xNew := (p.width - newW).fdiv 2
  if st.age_text = some newText ∧ st.age_color = some newColor then ([], dirty, st)
  else
    let oldBbox : Option Rect := st.age_text.map (fun t =>
      _bbox_text w t ((p.width - w.strLen t).fdiv 2) yAge 3)
    let newBbox := _bbox_text w newText xNew yAge 3
    let d := match oldBbox with
      | none => newBbox
      | some ob => unionR ob newBbox
    (_clear_rect p d BLACK ++ [Ev.text xNew yAge newText newColor],
     _union_rect dirty (some d),
     { st with age_text := some newText, age_color := some newColor })

/-- app_main.py `_draw_heart_if_changed` (pad 2, fixed position). -/
def _draw_heart_if_changed (p : Panel) (w : Writer) (heartOn : Bool)
    (st : ScreenState) (xHeart yHeart : Int) (dirty : Option Rect) :
    List Ev × Option Rect × ScreenState :=
  if st.heart_on = some heartOn then ([], dirty, st)
  else
    let hw := w.strLen "T".toList
    let hh := w.fheight
    let d : Rect := ⟨xHeart - 2, yHeart - 2, hw + 2 * 2, hh + 2 * 2⟩
    (_clear_rect p d BLACK ++
      (if heartOn then [Ev.text xHeart yHeart "T".toList RED] else []),
     _union_rect dirty (some d),
     { st with heart_on := some heartOn })

/-- app_main.py `_big_text_width`. -/
def _big_text_width (bf : BigFont) (s : List Char) (spacing : Int) : Int :=
  let w := s.foldl (fun acc ch =>
    match bf.glyphW ch with
    | some g => acc + g + spacing
    | none => acc) 0
  max 0 (w - spacing)

/-- app_main.py `_draw_bg_if_changed` (pad 6, centered big digits). -/
def _draw_bg_if_changed (p : Panel) (bf : BigFont) (newText : List Char)
    (newColor : Nat) (st : ScreenState) (yBg : Int) (dirty : Option Rect) :
    List Ev × Option Rect × ScreenState :=
  let newW := _big_text_width bf newText 2
  let xNew := (p.width - newW).fdiv 2
  if st.bg_text = some newText ∧ st.bg_color = some newColor then ([], dirty, st)
  else
    let oldBbox : Option Rect := st.bg_text.map (fun t =>
      let ow := _big_text_width bf t 2
      ⟨(p.width - ow).fdiv 2 - 6, yBg - 6, ow + 12, bf.height + 12⟩)
    let newBbox : Rect := ⟨xNew - 6, yBg - 6, newW + 12, bf.height + 12⟩
    let d := match oldBbox with
      | none => newBbox
      | some ob => unionR ob newBbox
    (_clear_rect p d BLACK ++ [Ev.bigText xNew yBg newText newColor],
     _union_rect dirty (some d),
     { st with bg_text := some newText, bg_color := some newColor })

/-- app_main.py `_draw_arrow_if_changed` (pad 3, fixed x). -/
def _draw_arrow_if_changed (p : Panel) (w : Writer) (newText : List Char)
    (newColor : Nat) (st : ScreenState) (xArrow yArrow : Int) (dirty : Option Rect) :
    List Ev × Option Rect × ScreenState :=
  if st.arrow_text = some newText ∧ st.arrow_color = some newColor then ([], dirty, st)
  else
    let oldBbox : Option Rect := st.arrow_text.map (fun t =>
      _bbox_text w t xArrow yArrow 3)
    let newBbox := _bbox_text w newText xArrow yArrow 3
    let d := match oldBbox with
      | none => newBbox
      | some ob => unionR ob newBbox
    (_clear_rect p d BLACK ++ [Ev.text xArrow yArrow newText newColor],
     _union_rect dirty (some d),
     { st with arrow_text := some newText, arrow_color := some newColor })

/-- app_main.py `_draw_delta_if_changed`: sign glyph and number drawn
right-aligned; an empty new text only clears the old box. -/
def _draw_delta_if_changed (p : Panel) (wSmall wDeltaIcon : Writer)
    (newDeltaText : List Char) (st : ScreenState) (yDelta : Int)
    (rightMargin : Int) (dirty : Option Rect) :
    List Ev × Option Rect × ScreenState :=
  if st.delta_text = some newDeltaText then ([], dirty, st)
  else
    let gap : Int := 5
    let vOffset : Int := -7
    let oldBbox : Option Rect :=
      match st.delta_text with
      | some (c :: tl) =>
        let numW := wSmall.strLen tl
        let signW := wDeltaIcon.strLen [c]
        let totalW := signW + gap + numW
        let h := max wSmall.fheight wDeltaIcon.fheight
        some ⟨p.width - rightMargin - totalW - 6, yDelta - 8, totalW + 12, h + 16⟩
      | _ => none
    match newDeltaText with
    | [] =>
      match oldBbox with
      | some ob =>
        (_clear_rect p ob BLACK, _union_rect dirty (some ob),
         { st with delta_text := some [] })
      | none => ([], dirty, { st with delta_text := some [] })
    | sign :: valNum =>
      let hSmall := wSmall.fheight
      let hDelta := wDeltaIcon.fheight
      let yDeltaCentered := yDelta + (hSmall - hDelta).fdiv 2 + vOffset
      let numW := wSmall.strLen valNum
      let signW := wDeltaIcon.strLen [sign]
      let xNum := p.width - rightMargin - numW
      let xSign := xNum - signW - gap
      let totalW := (p.width - rightMargin) - xSign
      let h := max hSmall hDelta
      let newBbox : Rect :=
        ⟨xSign - 6, (min yDeltaCentered yDelta) - 8, totalW + 12, h + 16⟩
      let d := match oldBbox with
        | none => newBbox
        | some ob => unionR ob newBbox
      (_clear_rect p d BLACK ++
        [Ev.text xSign yDeltaCentered [sign] WHITE,
         Ev.text xNum yDelta valNum WHITE],
       _union_rect dirty (some d),
       { st with delta_text := some (sign :: valNum) })

/-- app_main.py `_draw_batt_x_if_changed` (pad 0, unclipped fill_rect). -/
def _draw_batt_x_if_changed (p : Panel) (w : Writer) (usb : Bool)
    (st : ScreenState) (x y : Int) (dirty : Option Rect) :
    List Ev × Option Rect × ScreenState :=
  let newText : List Char := if usb then [] else ['0']
  let newPos : Int × Int := (x, y)
  if st.batt_x = some newText ∧ st.batt_pos = some newPos then ([], dirty, st)
  else
    let bw := w.strLen ['0']
    let bh := w.fheight
    let old : List Ev × Option Rect :=
      match st.batt_pos with
      | some op =>
        ([Ev.fillRect op.1 op.2 bw bh BLACK],
         _union_rect dirty (some ⟨op.1, op.2, bw, bh⟩))
      | none => ([], dirty)
    (old.1 ++ [Ev.fillRect x y bw bh BLACK] ++
      (if newText ≠ [] then [Ev.text x y newText GREEN] else []),
     _union_rect old.2 (some ⟨x, y, bw, bh⟩),
     { st with batt_x := some newText, batt_pos := some newPos })

/-- The writers and big font handed to the renderer. -/
structure Fonts where
  wSmall : Writer
  wAgeSmall : Writer
  wArrow : Writer
  wHeart : Writer
  wDeltaIcon : Writer
  wBatt : Writer
  big : BigFont

/-- The configuration the renderer reads (units, thresholds, toggles). -/
structure RenderCfg where
  units : List Char
  lowThreshold : ℚ
  highThreshold : ℚ
  staleMin : Int
  alertDoubleUp : Bool
  alertDoubleDown : Bool

/-- Python str of an int. -/
def intToChars (i : Int) : List Char :=
  if i < 0 then '-' :: Nat.toDigits 10 i.natAbs else Nat.toDigits 10 i.toNat

/-- app_main.py `fmt_bg`: str(int(round(x))) in mgdl mode, fixed
one-decimal format otherwise (floats idealized as exact rationals; the
signed-zero artifact of float formatting is not modelled). -/
def fmt_bg (units : List Char) (bg : ℚ) : List Char :=
  if mgdlMode units then intToChars (roundHalfEven bg)
  else
    let n := roundHalfEven (bg * 10)
    (if n < 0 then ['-'] else []) ++
      Nat.toDigits 10 (n.natAbs / 10) ++ '.' :: Nat.toDigits 10 (n.natAbs % 10)

/-- app_main.py `fmt_delta`: empty for a null delta, otherwise an
always-signed integer (mgdl) or one-decimal (conventional) format. -/
def fmt_delta (units : List Char) (d : Option ℚ) : List Char :=
  match d with
  | none => []
  | some v =>
    if mgdlMode units then
      (if roundHalfEven v < 0 then ['-'] else ['+']) ++
        Nat.toDigits 10 (roundHalfEven v).natAbs
    else
      let n := roundHalfEven (v * 10)
      (if n < 0 then ['-'] else ['+']) ++
        Nat.toDigits 10 (n.natAbs / 10) ++ '.' :: Nat.toDigits 10 (n.natAbs % 10)

/-- Minutes of age as computed by draw_all_fields_if_needed. -/
def age_mins (nowS timeMs : Int) : Int :=
  let rawS := timeMs.fdiv 1000
  let ageS0 := nowS - rawS
  let ageS := if ageS0 < 0 then 0 else ageS0
  (ageS + 30).fdiv 60

/-- The age label text of draw_all_fields_if_needed. -/
def age_text_val (nowS timeMs : Int) : List Char :=
  intToChars (age_mins nowS timeMs) ++
    (if age_mins nowS timeMs = 1 then " min ago".toList else " mins ago".toList)

/-- The age label color (red when stale). -/
def age_color_val (cfg : RenderCfg) (nowS timeMs : Int) : Nat :=
  if cfg.staleMin ≤ age_mins nowS timeMs then RED else WHITE

/-- The BG color cascade (low red, high yellow, else green). -/
def bg_color_val (cfg : RenderCfg) (bg : ℚ) : Nat :=
  if bg ≤ cfg.lowThreshold then RED
  else if cfg.highThreshold ≤ bg then YELLOW else GREEN

/-- The trend-arrow color (highlight toggles for DoubleUp/DoubleDown). -/
def arrow_color_val (cfg : RenderCfg) (dir : List Char) : Nat :=
  if cfg.alertDoubleUp ∧ dir = "DoubleUp".toList then YELLOW
  else if cfg.alertDoubleDown ∧ dir = "DoubleDown".toList then RED else WHITE

/-- The battery glyph text (blank on external power, the glyph 0 else). -/
def batt_text_val (usb : Bool) : List Char := if usb then [] else ['0']

/-- app_main.py `draw_all_fields_if_needed`: on first data clear the panel
and invalidate every cached field, then run the six per-field draws inside
one batch and flush the union dirty rectangle once (full flush without
show_rect support). -/
def draw_all_fields_if_needed (p : Panel) (f : Fonts) (cfg : RenderCfg)
    (last : Option Reading) (hb usb : Bool) (nowS : Int) (st : ScreenState) :
    List Ev × ScreenState :=
  match last with
  | none => ([], st)
  | some r =>
    let yAge : Int := 6
    let pre : List Ev × ScreenState :=
      if st.last_have_data then ([], st)
      else ([Ev.fill BLACK, Ev.flushFull],
        { st with
          last_have_data := true
          age_text := none
          bg_text := none
          arrow_text := none
          delta_text := none
          heart_on := none
          batt_x := none
          batt_pos := none })
    let st0 := pre.2
    let heartW := f.wHeart.strLen "T".toList
    let xHeart := p.width - 10 - heartW
    let yHeart := yAge + (f.wAgeSmall.fheight - f.wHeart.fheight).fdiv 4
    let bottomH := max f.wSmall.fheight f.wArrow.fheight
    let yBg := (p.height - f.big.height).fdiv 2
    let yBottomBase := p.height - bottomH - 1
    let xArrow : Int := 10
    let yArrow := yBottomBase + (bottomH - f.wArrow.fheight).fdiv 2 + (-2)
    let yDelta := yBottomBase + (bottomH - f.wSmall.fheight).fdiv 2
    let ageText := age_text_val nowS r.time_ms
    let ageColor := age_color_val cfg nowS r.time_ms
    let bgText := fmt_bg cfg.units r.bg
    let bgColor := bg_color_val cfg r.bg
    let arrowColor := arrow_color_val cfg r.direction
    let deltaText := fmt_delta cfg.units r.delta
    let o1 := _draw_age_if_changed p f.wAgeSmall ageText ageColor st0 yAge none
    let o2 := _draw_heart_if_changed p f.wHeart hb o1.2.2 xHeart yHeart o1.2.1
    let o3 := _draw_bg_if_changed p f.big bgText bgColor o2.2.2 yBg o2.2.1
    let o4 := _draw_arrow_if_changed p f.wArrow r.arrow arrowColor o3.2.2 xArrow
      yArrow o3.2.1
    let o5 := _draw_delta_if_changed p f.wSmall f.wDeltaIcon deltaText o4.2.2
      yDelta 4 o4.2.1
    let o6 := _draw_batt_x_if_changed p f.wBatt usb o5.2.2 10 8 o5.2.1
    let flushEvs : List Ev :=
      match o6.2.1 with
      | none => []
      | some d => if p.hasShowRect then [Ev.flushRect d.x d.y d.w d.h]
                  else [Ev.flushFull]
    (pre.1 ++ o1.1 ++ o2.1 ++ o3.1 ++ o4.1 ++ o5.1 ++ o6.1 ++ flushEvs, o6.2.2)

theorem dropDigits_length : ∀ l : List Char, (dropDigits l).length ≤ l.length := by
  intro l
  induction l with
  | nil => exact Nat.le_refl 0
  | cons c rest ih =>
    unfold dropDigits
    by_cases h : c.isDigit
    · simp only [h, if_true]
      exact Nat.le_succ_of_le ih
    · simp [h]

theorem digitAt_nil (k : Nat) : digitAt [] k = false := by
  simp [digitAt]

theorem digitAt_cons_succ (c : Char) (l : List Char) (k : Nat) :
    digitAt (c :: l) (k + 1) = digitAt l k := rfl

theorem dropDigits_head : ∀ l : List Char, digitAt (dropDigits l) 0 = false := by
  intro l
  induction l with
  | nil => simp [dropDigits, digitAt]
  | cons c rest ih =>
    unfold dropDigits
    by_cases h : c.isDigit
    · simpa [h] using ih
    · simp [h, digitAt]

theorem dropDigits_eq_self : ∀ l : List Char, digitAt l 0 = false → dropDigits l = l := by
  intro l h
  cases l with
  | nil => rfl
  | cons c rest =>
    simp only [digitAt, List.drop_zero] at h
    simp [dropDigits, h]

theorem countSubF_nil : ∀ f, countSubF f [] = [] := by
  intro f
  cases f <;> rfl

theorem countSubF_cons_match (f : Nat) (c : Char) (rest : List Char)
    (hm : matchAt (c :: rest) = true) :
    countSubF (f + 1) (c :: rest)
      = "count=2".toList ++ countSubF f (dropDigits (rest.drop 5)) := by
  rw [countSubF]
  rw [if_pos hm]

theorem countSubF_cons_nomatch (f : Nat) (c : Char) (rest : List Char)
    (hm : matchAt (c :: rest) = false) :
    countSubF (f + 1) (c :: rest) = c :: countSubF f rest := by
  rw [countSubF]
  rw [if_neg (by simp [hm])]

theorem dropDigits_drop5_le (rest : List Char) :
    (dropDigits (rest.drop 5)).length ≤ rest.length :=
  Nat.le_trans (dropDigits_length _) (by simpa using List.length_drop_le 5 rest)

theorem countSubF_congr : ∀ f g : Nat, ∀ l : List Char,
    l.length ≤ f → l.length ≤ g → countSubF f l = countSubF g l := by
  intro f
  induction f with
  | zero =>
    intro g l hf _
    have : l = [] := List.length_eq_zero.mp (Nat.le_zero.mp hf)
    subst this
    rw [countSubF_nil, countSubF_nil]
  | succ f ih =>
    intro g l hf hg
    cases l with
    | nil => rw [countSubF_nil, countSubF_nil]
    | cons c rest =>
      cases g with
      | zero => exact absurd hg (by simp)
      | succ g =>
        have hrf : rest.length ≤ f := Nat.lt_succ_iff.mp hf
        have hrg : rest.length ≤ g := Nat.lt_succ_iff.mp hg
        cases hm : matchAt (c :: rest) with
        | true =>
          rw [countSubF_cons_match f c rest hm, countSubF_cons_match g c rest hm,
            ih g _ (Nat.le_trans (dropDigits_drop5_le rest) hrf)
              (Nat.le_trans (dropDigits_drop5_le rest) hrg)]
        | false =>
          rw [countSubF_cons_nomatch f c rest hm, countSubF_cons_nomatch g c rest hm,
            ih g rest hrf hrg]

theorem matchAt_shape (l : List Char) (hm : matchAt l = true) :
    ∃ d t, l = 'c' :: 'o' :: 'u' :: 'n' :: 't' :: '=' :: d :: t ∧ d.isDigit = true := by
  unfold matchAt at hm
  obtain ⟨h1, h2⟩ : l.take 6 = countKey ∧ digitAt l 6 = true := by simpa using hm
  have htk := h1
  cases l with
  | nil => exact absurd htk (by decide)
  | cons a1 l1 => cases l1 with
    | nil => exact absurd htk (by simp [countKey])
    | cons a2 l2 => cases l2 with
      | nil => exact absurd htk (by simp [countKey])
      | cons a3 l3 => cases l3 with
        | nil => exact absurd htk (by simp [countKey])
        | cons a4 l4 => cases l4 with
          | nil => exact absurd htk (by simp [countKey])
          | cons a5 l5 => cases l5 with
            | nil => exact absurd htk (by simp [countKey])
            | cons a6 l6 =>
              have h6 : a1 = 'c' ∧ a2 = 'o' ∧ a3 = 'u' ∧ a4 = 'n' ∧ a5 = 't' ∧ a6 = '=' := by
                simpa [countKey] using htk
              obtain ⟨rfl, rfl, rfl, rfl, rfl, rfl⟩ := h6
              cases l6 with
              | nil => exact absurd h2 (by simp [digitAt])
              | cons d t => exact ⟨d, t, rfl, h2⟩

theorem countSubF_take : ∀ f : Nat, ∀ l : List Char, ∀ k : Nat,
    l.length ≤ f → k ≤ 6 → (countSubF f l).take k = l.take k := by
  intro f
  induction f with
  | zero => intro l k _ _; rfl
  | succ f ih =>
    intro l k hf hk
    cases l with
    | nil => rw [countSubF_nil]
    | cons c rest =>
      have hrf : rest.length ≤ f := Nat.lt_succ_iff.mp hf
      cases hm : matchAt (c :: rest) with
      | true =>
        rw [countSubF_cons_match f c rest hm]
        obtain ⟨d, t, hshape, hd⟩ := matchAt_shape _ hm
        injection hshape with hc hrest
        subst hc; subst hrest
        interval_cases k <;> rfl
      | false =>
        rw [countSubF_cons_nomatch f c rest hm]
        cases k with
        | zero => rfl
        | succ j =>
          rw [List.take_succ_cons, List.take_succ_cons,
            ih rest j hrf (Nat.le_trans (Nat.le_succ j) hk)]

theorem countSubF_digitAt : ∀ f : Nat, ∀ l : List Char, ∀ k : Nat,
    l.length ≤ f → k ≤ 6 → digitAt (countSubF f l) k = digitAt l k := by
  intro f
  induction f with
  | zero => intro l k _ _; rfl
  | succ f ih =>
    intro l k hf hk
    cases l with
    | nil => rw [countSubF_nil]
    | cons c rest =>
      have hrf : rest.length ≤ f := Nat.lt_succ_iff.mp hf
      cases hm : matchAt (c :: rest) with
      | true =>
        rw [countSubF_cons_match f c rest hm]
        obtain ⟨d, t, hshape, hd⟩ := matchAt_shape _ hm
        injection hshape with hc hrest
        subst hc; subst hrest
        interval_cases k <;> simp [digitAt, hd]
      | false =>
        rw [countSubF_cons_nomatch f c rest hm]
        cases k with
        | zero => rfl
        | succ j =>
          rw [digitAt_cons_succ, digitAt_cons_succ,
            ih rest j hrf (Nat.le_trans (Nat.le_succ j) hk)]

theorem countSub_cons_match (c : Char) (rest : List Char)
    (hm : matchAt (c :: rest) = true) :
    countSub (c :: rest) = "count=2".toList ++ countSub (dropDigits (rest.drop 5)) := by
  unfold countSub
  rw [show (c :: rest).length = rest.length + 1 from rfl,
    countSubF_cons_match _ _ _ hm]
  congr 1
  exact countSubF_congr _ _ _ (dropDigits_drop5_le rest) (Nat.le_refl _)

theorem countSub_cons_nomatch (c : Char) (rest : List Char)
    (hm : matchAt (c :: rest) = false) :
    countSub (c :: rest) = c :: countSub rest := by
  unfold countSub
  rw [show (c :: rest).length = rest.length + 1 from rfl,
    countSubF_cons_nomatch _ _ _ hm]

theorem countSub_take (l : List Char) (k : Nat) (hk : k ≤ 6) :
    (countSub l).take k = l.take k :=
  countSubF_take l.length l k (Nat.le_refl _) hk

theorem countSub_digitAt (l : List Char) (k : Nat) (hk : k ≤ 6) :
    digitAt (countSub l) k = digitAt l k :=
  countSubF_digitAt l.length l k (Nat.le_refl _) hk

theorem matchAt_cons_congr (c : Char) (X Y : List Char)
    (h5 : X.take 5 = Y.take 5) (hd : digitAt X 5 = digitAt Y 5) :
    matchAt (c :: X) = matchAt (c :: Y) := by
  unfold matchAt
  rw [List.take_succ_cons, List.take_succ_cons, h5,
    show digitAt (c :: X) 6 = digitAt X 5 from rfl,
    show digitAt (c :: Y) 6 = digitAt Y 5 from rfl, hd]

theorem matchAt_k7_append (X : List Char) :
    matchAt ("count=2".toList ++ X) = true := rfl

theorem countSub_idem_aux : ∀ n : Nat, ∀ l : List Char, l.length ≤ n →
    countSub (countSub l) = countSub l := by
  intro n
  induction n with
  | zero =>
    intro l hl
    have : l = [] := List.length_eq_zero.mp (Nat.le_zero.mp hl)
    subst this
    rfl
  | succ g ih =>
    intro l hl
    cases l with
    | nil => rfl
    | cons c rest =>
      have hr : rest.length ≤ g := Nat.lt_succ_iff.mp hl
      cases hm : matchAt (c :: rest) with
      | true =>
        rw [countSub_cons_match c rest hm]
        have hX0 : digitAt (countSub (dropDigits (rest.drop 5))) 0 = false := by
          rw [countSub_digitAt _ 0 (by omega)]
          exact dropDigits_head _
        have hXfix : countSub (countSub (dropDigits (rest.drop 5)))
            = countSub (dropDigits (rest.drop 5)) :=
          ih _ (Nat.le_trans (dropDigits_drop5_le rest) hr)
        have hk7 : matchAt
            ('c' :: ("ount=2".toList ++ countSub (dropDigits (rest.drop 5)))) = true := rfl
        rw [show ("count=2".toList ++ countSub (dropDigits (rest.drop 5)))
              = 'c' :: ("ount=2".toList ++ countSub (dropDigits (rest.drop 5))) from rfl,
          countSub_cons_match _ _ hk7,
          show ("ount=2".toList ++ countSub (dropDigits (rest.drop 5))).drop 5
              = '2' :: countSub (dropDigits (rest.drop 5)) from rfl,
          show dropDigits ('2' :: countSub (dropDigits (rest.drop 5)))
              = dropDigits (countSub (dropDigits (rest.drop 5))) from by
                simp [dropDigits],
          dropDigits_eq_self _ hX0, hXfix]
        rfl
      | false =>
        rw [countSub_cons_nomatch c rest hm]
        have hmm : matchAt (c :: countSub rest) = false := by
          rw [matchAt_cons_congr c (countSub rest) rest
            (countSub_take rest 5 (by omega)) (countSub_digitAt rest 5 (by omega))]
          exact hm
        rw [countSub_cons_nomatch _ _ hmm, ih rest hr]

theorem countSub_idem (l : List Char) : countSub (countSub l) = countSub l :=
  countSub_idem_aux l.length l (Nat.le_refl _)

theorem subIdx_isSome_of_head (key l : List Char) (h : key.isPrefixOf l = true) :
    (subIdx key l).isSome = true := by
  cases l with
  | nil =>
    have : key = [] := by
      cases key with
      | nil => rfl
      | cons a t => simp [List.isPrefixOf] at h
    subst this
    rfl
  | cons c rest =>
    unfold subIdx
    rw [if_pos h]
    rfl

theorem subIdx_isSome_cons (key : List Char) (c : Char) (rest : List Char) :
    (subIdx key (c :: rest)).isSome
      = (key.isPrefixOf (c :: rest) || (subIdx key rest).isSome) := by
  by_cases h : key.isPrefixOf (c :: rest) = true
  · rw [h]
    conv_lhs => rw [subIdx]
    rw [if_pos h]
    rfl
  · rw [Bool.eq_false_iff.mpr h]
    conv_lhs => rw [subIdx]
    rw [if_neg h]
    cases hsub : subIdx key rest <;> simp

theorem subIdx_none_iff (key : List Char) : ∀ l : List Char,
    subIdx key l = none ↔ ∀ i, key.isPrefixOf (l.drop i) = false := by
  intro l
  induction l with
  | nil =>
    constructor
    · intro h i
      rw [List.drop_nil]
      cases key with
      | nil => simp [subIdx] at h
      | cons a t => simp [List.isPrefixOf]
    · intro h
      unfold subIdx
      have hk : ¬ key = [] := by
        intro he
        subst he
        simpa using h 0
      rw [if_neg hk]
  | cons c rest ih =>
    unfold subIdx
    by_cases hp : key.isPrefixOf (c :: rest) = true
    · refine iff_of_false (by simp [hp]) ?_
      intro h
      simpa [hp] using h 0
    · rw [if_neg hp]
      simp only [Option.map_eq_none']
      rw [ih]
      constructor
      · intro h i
        cases i with
        | zero => simpa using Bool.eq_false_iff.mpr hp
        | succ j => simpa using h j
      · intro h i
        simpa using h (i + 1)

theorem take6_key_isPrefixOf (l : List Char) (h : l.take 6 = countKey) :
    countKey.isPrefixOf l = true := by
  have hp : countKey <+: l := by
    rw [List.prefix_iff_eq_take]
    rw [show countKey.length = 6 from rfl]
    exact h.symm
  exact List.isPrefixOf_iff_prefix.mpr hp

theorem isPrefixOf_take6_key (l : List Char) (h : countKey.isPrefixOf l = true) :
    l.take 6 = countKey := by
  have hp : countKey <+: l := List.isPrefixOf_iff_prefix.mp h
  have h2 := List.prefix_iff_eq_take.mp hp
  rw [show countKey.length = 6 from rfl] at h2
  exact h2.symm

theorem contains_countSub_aux : ∀ n : Nat, ∀ l : List Char, l.length ≤ n →
    (subIdx countKey l).isSome = true →
    (subIdx countKey (countSub l)).isSome = true := by
  intro n
  induction n with
  | zero =>
    intro l hl h
    have : l = [] := List.length_eq_zero.mp (Nat.le_zero.mp hl)
    subst this
    simpa [subIdx, countKey] using h
  | succ g ih =>
    intro l hl h
    cases l with
    | nil => simpa [subIdx, countKey] using h
    | cons c rest =>
      have hr : rest.length ≤ g := Nat.lt_succ_iff.mp hl
      cases hm : matchAt (c :: rest) with
      | true =>
        rw [countSub_cons_match c rest hm]
        exact subIdx_isSome_of_head _ _ (take6_key_isPrefixOf _ rfl)
      | false =>
        rw [countSub_cons_nomatch c rest hm]
        rw [subIdx_isSome_cons] at h ⊢
        rcases Bool.or_eq_true_iff.mp h with hp | hs
        · have htk : (c :: rest).take 6 = countKey := isPrefixOf_take6_key _ hp
          have hnew : (c :: countSub rest).take 6 = countKey := by
            rw [List.take_succ_cons, countSub_take rest 5 (by omega)]
            rw [List.take_succ_cons] at htk
            exact htk
          rw [take6_key_isPrefixOf _ hnew]
          rfl
        · rw [ih rest hr hs]
          simp

theorem contains_countSub (l : List Char)
    (h : (subIdx countKey l).isSome = true) :
    (subIdx countKey (countSub l)).isSome = true :=
  contains_countSub_aux l.length l (Nat.le_refl _) h

theorem countSub_append_of_no_match : ∀ a b : List Char,
    (∀ i, i < a.length → matchAt ((a ++ b).drop i) = false) →
    countSub (a ++ b) = a ++ countSub b := by
  intro a
  induction a with
  | nil => intro b _; simp
  | cons c a2 ih =>
    intro b h
    have h0 : matchAt (c :: (a2 ++ b)) = false := by
      simpa using h 0 (by simp)
    rw [List.cons_append, countSub_cons_nomatch _ _ h0,
      ih b (fun i hi => by simpa using h (i + 1) (by simpa using Nat.succ_lt_succ hi))]
    rfl

theorem no_match_append_window (e : List Char) (j : Char) (b : List Char)
    (he : subIdx countKey e = none) (hj : j = '?' ∨ j = '&') :
    ∀ i, i < e.length + 1 → matchAt (((e ++ [j]) ++ b).drop i) = false := by
  intro i hi
  cases hx : matchAt (((e ++ [j]) ++ b).drop i) with
  | false => rfl
  | true =>
    exfalso
    obtain ⟨d, t, hshape, hd⟩ := matchAt_shape _ hx
    by_cases hin : i + 6 ≤ e.length
    · have hdrop : ((e ++ [j]) ++ b).drop i = e.drop i ++ ([j] ++ b) := by
        rw [List.append_assoc, List.drop_append_eq_append_drop,
          show i - e.length = 0 from by omega, List.drop_zero]
      have htk : (e.drop i).take 6 = countKey := by
        have h6 : (((e ++ [j]) ++ b).drop i).take 6 = countKey := by
          rw [hshape]
          rfl
        rw [hdrop, List.take_append_of_le_length (by simp; omega)] at h6
        exact h6
      exact absurd (take6_key_isPrefixOf _ htk)
        (Bool.eq_false_iff.mp ((subIdx_none_iff countKey e).mp he i))
    · have hdd : (((e ++ [j]) ++ b).drop i).drop (e.length - i) = j :: b := by
        rw [List.drop_drop,
          show i + (e.length - i) = e.length from by omega, List.append_assoc]
        simpa using List.drop_left e ([j] ++ b)
      rw [hshape] at hdd
      have hm5 : e.length - i ≤ 5 := by omega
      have hj2 : j = 'c' ∨ j = 'o' ∨ j = 'u' ∨ j = 'n' ∨ j = 't' ∨ j = '=' := by
        interval_cases h : (e.length - i)
        · have hdd2 : ('c' :: 'o' :: 'u' :: 'n' :: 't' :: '=' :: d :: t) = j :: b := hdd
          injection hdd2 with h1 h2
          exact Or.inl h1.symm
        · have hdd2 : ('o' :: 'u' :: 'n' :: 't' :: '=' :: d :: t) = j :: b := hdd
          injection hdd2 with h1 h2
          exact Or.inr (Or.inl h1.symm)
        · have hdd2 : ('u' :: 'n' :: 't' :: '=' :: d :: t) = j :: b := hdd
          injection hdd2 with h1 h2
          exact Or.inr (Or.inr (Or.inl h1.symm))
        · have hdd2 : ('n' :: 't' :: '=' :: d :: t) = j :: b := hdd
          injection hdd2 with h1 h2
          exact Or.inr (Or.inr (Or.inr (Or.inl h1.symm)))
        · have hdd2 : ('t' :: '=' :: d :: t) = j :: b := hdd
          injection hdd2 with h1 h2
          exact Or.inr (Or.inr (Or.inr (Or.inr (Or.inl h1.symm))))
        · have hdd2 : ('=' :: d :: t) = j :: b := hdd
          injection hdd2 with h1 h2
          exact Or.inr (Or.inr (Or.inr (Or.inr (Or.inr h1.symm))))
      rcases hj with rfl | rfl <;>
        rcases hj2 with h | h | h | h | h | h <;> exact absurd h (by decide)

theorem ensure_append_fixed (e : List Char) (j : Char)
    (hcn : subIdx countKey e = none) (hj : j = '?' ∨ j = '&') :
    ensure_count2 (e ++ j :: "count=2".toList) = e ++ j :: "count=2".toList := by
  have hsplit : e ++ j :: "count=2".toList = (e ++ [j]) ++ "count=2".toList := by
    simp
  have hwin := no_match_append_window e j "count=2".toList hcn hj
  have hcs : countSub ((e ++ [j]) ++ "count=2".toList)
      = (e ++ [j]) ++ "count=2".toList := by
    rw [countSub_append_of_no_match _ _ (fun i hi => hwin i (by simpa using hi)),
      show countSub "count=2".toList = "count=2".toList from by decide]
  have hcont : (subIdx countKey ((e ++ [j]) ++ "count=2".toList)).isSome = true := by
    cases hnn : subIdx countKey ((e ++ [j]) ++ "count=2".toList) with
    | some v => rfl
    | none =>
      exfalso
      have hat := (subIdx_none_iff countKey _).mp hnn (e.length + 1)
      rw [show ((e ++ [j]) ++ "count=2".toList).drop (e.length + 1)
            = "count=2".toList from by
          rw [show e.length + 1 = (e ++ [j]).length from by simp]
          exact List.drop_left _ _] at hat
      exact absurd hat (by decide)
  rw [hsplit]
  unfold ensure_count2
  rw [if_pos hcont, hcs]

/-- Claim C9 (amended): ensure_count2 is idempotent for every endpoint
string, and forces the fixed value for occurrences of the SUBSTRING count=
followed by digits: an endpoint already carrying count=2 is unchanged, an
existing count=digits is replaced by count=2 leaving other query parameters
intact, and an endpoint not containing the substring count= gets count=2
appended with the question-mark or ampersand joiner; an endpoint containing
count= only inside a longer parameter name (discount=50) is rewritten in
place and does NOT get a count parameter appended. -/
theorem ensure_count2_idem_and_rewrite :
    (∀ e : List Char, ensure_count2 (ensure_count2 e) = ensure_count2 e) ∧
    ensure_count2 "b?count=2".toList = "b?count=2".toList ∧
    ensure_count2 "b?count=50&x=1".toList = "b?count=2&x=1".toList ∧
    ensure_count2 "b".toList = "b?count=2".toList ∧
    ensure_count2 "b?x=1".toList = "b?x=1&count=2".toList ∧
    ensure_count2 "a?discount=50".toList = "a?discount=2".toList := by
  refine ⟨?_, by decide, by decide, by decide, by decide, by decide⟩
  intro e
  by_cases hc : (subIdx countKey e).isSome = true
  · rw [show ensure_count2 e = countSub e from by
      unfold ensure_count2
      rw [if_pos hc]]
    unfold ensure_count2
    rw [if_pos (contains_countSub e hc), countSub_idem]
  · have hcn : subIdx countKey e = none := by
      cases hnn : subIdx countKey e with
      | none => rfl
      | some v => exact absurd (by rw [hnn]; rfl) hc
    unfold ensure_count2
    rw [if_neg hc]
    by_cases hq : (subIdx ['?'] e).isSome = true
    · rw [if_pos hq]
      exact ensure_append_fixed e '&' hcn (Or.inr rfl)
    · rw [if_neg hq]
      exact ensure_append_fixed e '?' hcn (Or.inl rfl)

/-- Claim C9 (counterexample): the containment test is on the SUBSTRING
count=, so an endpoint whose only count= occurrence is inside the parameter
name discount is rewritten in place instead of getting count=2 appended:
the result carries no count parameter at all. -/
theorem ensure_count2_substring_cx :
    ensure_count2 "a?discount=50".toList = "a?discount=2".toList ∧
    "a?discount=2".toList ≠ "a?discount=50&count=2".toList := by
  decide

theorem find_int_after_nil (key : List Char) (hk : key ≠ []) (n : Nat) :
    _find_int_after [] key n = none := by
  unfold _find_int_after findFrom subIdx
  simp [hk]

/-- Claim C5 (amended): parse returns null exactly when the scan of the
first "sgv": occurrence fails (no occurrence, or no integer follows it); a
body whose only valid "sgv":int token lies after a failing first occurrence
is also rejected.  When the first-occurrence scan yields v, parse returns a
Reading whose bg is the configured-unit conversion of v. -/
theorem parse_null_iff_first_scan (units txt : List Char) :
    (parse_entries_from_text units txt = none ↔
      _find_int_after txt sgvKey 0 = none) ∧
    (∀ v p, _find_int_after txt sgvKey 0 = some (v, p) →
      ∃ r, parse_entries_from_text units txt = some r ∧
        r.bg = mgdl_to_units units v) := by
  constructor
  · unfold parse_entries_from_text
    by_cases h : txt = []
    · subst h
      simp [find_int_after_nil sgvKey (by decide) 0]
    · rw [if_neg h]
      cases hf : _find_int_after txt sgvKey 0 with
      | none => simp
      | some vp => simp
  · intro v p h
    have hne : txt ≠ [] := by
      intro he
      rw [he, find_int_after_nil sgvKey (by decide) 0] at h
      exact Option.noConfusion h
    unfold parse_entries_from_text
    rw [if_neg hne, h]
    exact ⟨_, rfl, rfl⟩

/-- Claim C5 (counterexample): this body contains a valid "sgv":int token
(at index 8, value 5), yet parse returns null, because only the first
occurrence of the key is scanned for an integer. -/
theorem parse_null_despite_token_cx :
    parse_entries_from_text "mmol".toList "\"sgv\":x,\"sgv\":5".toList = none ∧
    _find_int_after "\"sgv\":x,\"sgv\":5".toList sgvKey 8 = some (5, 15) := by
  decide

theorem parse_null_iff_first_scan_witness :
    ∃ r, parse_entries_from_text "mgdl".toList "[\x7b\"sgv\":100\x7d]".toList = some r ∧
      r.bg = mgdl_to_units "mgdl".toList 100 :=
  (parse_null_iff_first_scan "mgdl".toList "[\x7b\"sgv\":100\x7d]".toList).2 100 11 (by decide)

/-- Claim C1 (amended): with the first "sgv" scan yielding cur at offset p,
the delta is the second "sgv" scan mapped through the unit rule: current
minus previous in mgdl mode, (current minus previous) / 18 in the
conventional mode WITHOUT the one-decimal rounding applied to the value
(absent second occurrence means null delta). -/
theorem parse_delta_rule (units txt : List Char) (cur : Int) (p : Nat)
    (h : _find_int_after txt sgvKey 0 = some (cur, p)) :
    ∃ r, parse_entries_from_text units txt = some r ∧
      r.delta = (_find_int_after txt sgvKey p).map (fun q =>
        if mgdlMode units then (cur : ℚ) - (q.1 : ℚ)
        else ((cur : ℚ) - (q.1 : ℚ)) / 18) := by
  have hne : txt ≠ [] := by
    intro he
    rw [he, find_int_after_nil sgvKey (by decide) 0] at h
    exact Option.noConfusion h
  unfold parse_entries_from_text
  rw [if_neg hne, h]
  refine ⟨_, rfl, ?_⟩
  cases h2 : _find_int_after txt sgvKey p with
  | none => simp [h2]
  | some q =>
    by_cases hm : mgdlMode units <;> simp [h2, hm]

theorem parse_delta_rule_witness :
    ∃ r, parse_entries_from_text "mgdl".toList "[\x7b\"sgv\":100\x7d,\x7b\"sgv\":90\x7d]".toList
        = some r ∧
      r.delta = (_find_int_after "[\x7b\"sgv\":100\x7d,\x7b\"sgv\":90\x7d]".toList sgvKey 11).map
        (fun q => if mgdlMode "mgdl".toList then (100 : ℚ) - (q.1 : ℚ)
                  else ((100 : ℚ) - (q.1 : ℚ)) / 18) :=
  parse_delta_rule "mgdl".toList "[\x7b\"sgv\":100\x7d,\x7b\"sgv\":90\x7d]".toList 100 11 (by decide)

/-- Claim C1 (counterexample): in the conventional (mmol) mode the parsed
delta for sgv values 100 then 90 is 10/18 = 5/9, not the one-decimal
rounding 0.6 = 3/5 of (current minus previous)/18; the unit rule is NOT
applied identically to value and delta. -/
theorem parse_delta_not_rounded_cx :
    (parse_entries_from_text "mmol".toList "[\x7b\"sgv\":100\x7d,\x7b\"sgv\":90\x7d]".toList).map
        Reading.delta = some (some (5/9)) ∧
    pyRound1 (((100 : ℚ) - 90) / 18) = 3/5 ∧
    ((5 : ℚ)/9) ≠ 3/5 := by
  refine ⟨?_, by norm_num [pyRound1, roundHalfEven], by norm_num⟩
  have h1 : _find_int_after "[\x7b\"sgv\":100\x7d,\x7b\"sgv\":90\x7d]".toList sgvKey 0
      = some (100, 11) := by decide
  have h2 : _find_int_after "[\x7b\"sgv\":100\x7d,\x7b\"sgv\":90\x7d]".toList sgvKey 11
      = some (90, 22) := by decide
  have hu : mgdlMode "mmol".toList = false := by decide
  unfold parse_entries_from_text
  rw [if_neg (by decide : ¬ "[\x7b\"sgv\":100\x7d,\x7b\"sgv\":90\x7d]".toList = []), h1]
  simp only [h2, hu, Option.map_some]
  norm_num

/-- Claim C10: when the first "sgv" scan succeeds and, from its end offset
on, neither a "mills": integer nor a "date": integer is found, parse still
returns a Reading and its time_ms defaults to 0. -/
theorem parse_missing_timestamp_zero (units txt : List Char) (v : Int) (p : Nat)
    (h : _find_int_after txt sgvKey 0 = some (v, p))
    (hm : _find_int_after txt millsKey p = none)
    (hd : _find_int_after txt dateKey p = none) :
    ∃ r, parse_entries_from_text units txt = some r ∧ r.time_ms = 0 := by
  have hne : txt ≠ [] := by
    intro he
    rw [he, find_int_after_nil sgvKey (by decide) 0] at h
    exact Option.noConfusion h
  unfold parse_entries_from_text
  rw [if_neg hne, h]
  refine ⟨_, rfl, ?_⟩
  simp [hm, hd]

theorem parse_missing_timestamp_zero_witness :
    ∃ r, parse_entries_from_text "mmol".toList "\x7b\"sgv\":100\x7d".toList = some r ∧
      r.time_ms = 0 :=
  parse_missing_timestamp_zero "mmol".toList "\x7b\"sgv\":100\x7d".toList 100 10
    (by decide) (by decide) (by decide)

/-! ## Alert-engine theorems -/

/-- Claim C3: one alert evaluation on a non-null bg sets the mode exactly
per the two-tier rule with severe threshold 4 below mild threshold 5:
snoozed gives 0 (off), bg at most 4 gives 1 (severe solid), bg at most 5
gives 2 (mild pattern), otherwise 0; in particular 3.5 gives severe, 4.5
gives mild, 6 gives off, and any bg while snoozed gives off. -/
theorem alert_two_tier_rule (v : ℚ) (now : Int) (st : AlertState) :
    (check_glucose_alerts (some v) now st).buzzer_mode =
      (if now < st.buzzer_snooze_until then 0
       else if v ≤ SEVERE_LOW_THRESHOLD then 1
       else if v ≤ MILD_LOW_THRESHOLD then 2
       else 0) ∧
    SEVERE_LOW_THRESHOLD = 4 ∧ MILD_LOW_THRESHOLD = 5 ∧
    (check_glucose_alerts (some (7/2)) 100 ⟨0, 0, 0, 1⟩).buzzer_mode = 1 ∧
    (check_glucose_alerts (some (9/2)) 100 ⟨0, 0, 0, 1⟩).buzzer_mode = 2 ∧
    (check_glucose_alerts (some 6) 100 ⟨0, 0, 0, 1⟩).buzzer_mode = 0 ∧
    (check_glucose_alerts (some (7/2)) 100 ⟨0, 200, 0, 1⟩).buzzer_mode = 0 := by
  have hthr : ∀ v : ℚ, ∀ now : Int, ∀ st : AlertState,
      (check_glucose_alerts (some v) now st).buzzer_mode =
        (if now < st.buzzer_snooze_until then 0
         else if v ≤ SEVERE_LOW_THRESHOLD then 1
         else if v ≤ MILD_LOW_THRESHOLD then 2
         else 0) := by
    intro v now st
    simp only [check_glucose_alerts, ticks_diff, Int.sub_neg]
    split_ifs <;> first | rfl | omega
  refine ⟨hthr v now st, rfl, rfl, ?_, ?_, ?_, ?_⟩ <;>
    rw [hthr] <;>
    norm_num [SEVERE_LOW_THRESHOLD, MILD_LOW_THRESHOLD]

/-- Claim C6 (amended): a stop press while an alert is active drives the
buzzer pin inactive (value 1), forces mode 0, snoozes for 10 minutes and
resets the mild cooldown clock to now, so the pattern cannot fire strictly
before snooze expiry (at the exact expiry instant the 10-minute cooldown
has also elapsed, so the pattern may fire right then); a press with no
active alert changes nothing. -/
theorem buzzer_stop_transitions (now : Int) (st : AlertState) :
    (st.buzzer_mode ≠ 0 →
      request_buzzer_stop now st =
        ⟨0, now + BUZZER_SNOOZE_MS, now, 1⟩) ∧
    (st.buzzer_mode = 0 → request_buzzer_stop now st = st) ∧
    (∀ t m, t < (request_buzzer_stop now st).buzzer_snooze_until →
      ¬ mild_fire_condition
          ⟨m, (request_buzzer_stop now st).buzzer_snooze_until,
           (request_buzzer_stop now st).last_mild_beep_time,
           (request_buzzer_stop now st).buz⟩ t) := by
  refine ⟨fun h => ?_, fun h => ?_, fun t m ht => ?_⟩
  · unfold request_buzzer_stop
    rw [if_neg h]
    rfl
  · unfold request_buzzer_stop
    rw [if_pos h]
  · intro hc
    exact absurd (by simpa [ticks_diff, Int.sub_neg] using ht) hc.2.1

theorem buzzer_stop_transitions_witness :
    request_buzzer_stop 5 ⟨2, 0, -600000, 0⟩ = ⟨0, 600005, 5, 1⟩ :=
  (buzzer_stop_transitions 5 ⟨2, 0, -600000, 0⟩).1 (by decide)

/-- Claim C6 (counterexample): the snooze window and the mild cooldown are
both exactly 10 minutes, so after a stop at tick 0 the driver condition for
the mild pattern already holds again at the exact snooze expiry tick 600000
(once an evaluation has set mode 2); the reset does not prevent the pattern
from firing immediately at snooze expiry, only strictly before it. -/
theorem buzzer_stop_fire_at_expiry_cx :
    (request_buzzer_stop 0 ⟨2, 0, -600000, 0⟩).buzzer_snooze_until = 600000 ∧
    mild_fire_condition
      (check_glucose_alerts (some (9/2)) 600000 (request_buzzer_stop 0 ⟨2, 0, -600000, 0⟩))
      600000 := by
  have hst : request_buzzer_stop 0 ⟨2, 0, -600000, 0⟩ = ⟨0, 600000, 0, 1⟩ := by decide
  have hck : check_glucose_alerts (some (9/2)) 600000 (⟨0, 600000, 0, 1⟩ : AlertState)
      = ⟨2, 600000, 0, 1⟩ := by
    norm_num [check_glucose_alerts, ticks_diff, SEVERE_LOW_THRESHOLD, MILD_LOW_THRESHOLD]
  rw [hst, hck]
  exact ⟨rfl, by decide⟩

/-! ## DataFetchClient theorems -/

theorem one_request_error_parse (beh : ReqBehavior) (u : List Char) (m : Nat) (e : Unit)
    (h : _one_request beh u m = Except.error e) : _parse_url u = Except.error () := by
  unfold _one_request at h
  cases hp : _parse_url u with
  | error e2 => cases e2; rfl
  | ok v =>
    rw [hp] at h
    exfalso
    by_cases hs : beh.sockFail = true
    · simp [hs] at h
    · simp only [Bool.not_eq_true] at hs
      simp only [hs, Bool.false_eq_true, if_false] at h
      cases hr : recvLoop beh.chunks beh.budget beh.closedAfter (m + 1024) [] with
      | none => simp [hr] at h
      | some raw =>
        rw [hr] at h
        cases hsep : subIdx CRLFCRLF raw with
        | none => simp [hsep] at h
        | some sep => simp [hsep] at h

theorem one_request_sockfail_none (beh : ReqBehavior) (u : List Char) (m : Nat)
    (v : Bool × List Char × Int × List Char)
    (hp : _parse_url u = Except.ok v) (hs : beh.sockFail = true) :
    _one_request beh u m = Except.ok none := by
  simp [_one_request, hp, hs]

theorem one_request_recv_timeout_none (beh : ReqBehavior) (u : List Char) (m : Nat)
    (v : Bool × List Char × Int × List Char)
    (hp : _parse_url u = Except.ok v)
    (hr : recvLoop beh.chunks beh.budget beh.closedAfter (m + 1024) [] = none) :
    _one_request beh u m = Except.ok none := by
  cases hs : beh.sockFail <;> simp [_one_request, hp, hs, hr]

theorem one_request_no_split_none (beh : ReqBehavior) (u : List Char) (m : Nat)
    (v : Bool × List Char × Int × List Char) (raw : List Char)
    (hp : _parse_url u = Except.ok v)
    (hr : recvLoop beh.chunks beh.budget beh.closedAfter (m + 1024) [] = some raw)
    (hsep : subIdx CRLFCRLF raw = none) :
    _one_request beh u m = Except.ok none := by
  cases hs : beh.sockFail <;> simp [_one_request, hp, hs, hr, hsep]

theorem fetch_wlan_exc_none (nsUrl apiEndpoint : List Char) (env : NetEnv)
    (h : env.wlanFails = true) :
    (fetch_ns_text nsUrl apiEndpoint env).result = Except.ok none := by
  simp [fetch_ns_text, h]

theorem fetch_link_down_none (nsUrl apiEndpoint : List Char) (env : NetEnv)
    (h : env.wlanActive = false ∨ env.wlanConnected = false) :
    (fetch_ns_text nsUrl apiEndpoint env).result = Except.ok none := by
  cases hw : env.wlanFails <;> rcases h with h | h <;> simp [fetch_ns_text, hw, h]

theorem fetch_blank_url_none (nsUrl apiEndpoint : List Char) (env : NetEnv)
    (h : nsUrl = []) :
    (fetch_ns_text nsUrl apiEndpoint env).result = Except.ok none := by
  cases hw : env.wlanFails <;> cases ha : env.wlanActive <;> cases hc : env.wlanConnected <;>
    simp [fetch_ns_text, hw, ha, hc, h]

theorem fetch_low_mem_none (nsUrl apiEndpoint : List Char) (env : NetEnv)
    (h : env.memFree < 20000) :
    (fetch_ns_text nsUrl apiEndpoint env).result = Except.ok none := by
  cases hw : env.wlanFails <;> cases ha : env.wlanActive <;> cases hc : env.wlanConnected <;>
    by_cases hn : nsUrl = [] <;>
    simp [fetch_ns_text, hw, ha, hc, hn, h]

theorem fetch_req1_none (nsUrl apiEndpoint : List Char) (env : NetEnv)
    (hr : _one_request env.req1 (nsUrl ++ ensure_count2 apiEndpoint) 2048
      = Except.ok none) :
    (fetch_ns_text nsUrl apiEndpoint env).result = Except.ok none := by
  cases hw : env.wlanFails <;> cases ha : env.wlanActive <;> cases hc : env.wlanConnected <;>
    by_cases hn : nsUrl = [] <;> by_cases hm : env.memFree < 20000 <;>
    simp [fetch_ns_text, hw, ha, hc, hn, hm, hr]

theorem fetch_non200_none (nsUrl apiEndpoint : List Char) (env : NetEnv)
    (s : Int) (hdrs : List (List Char × List Char)) (b : List Char)
    (hr : _one_request env.req1 (nsUrl ++ ensure_count2 apiEndpoint) 2048
      = Except.ok (some (some s, hdrs, b)))
    (hnr : redirectStatus s = false) (hne : s ≠ 200) :
    (fetch_ns_text nsUrl apiEndpoint env).result = Except.ok none := by
  cases hw : env.wlanFails <;> cases ha : env.wlanActive <;> cases hc : env.wlanConnected <;>
    by_cases hn : nsUrl = [] <;> by_cases hm : env.memFree < 20000 <;>
    simp [fetch_ns_text, hw, ha, hc, hn, hm, hr, hnr, hne]

theorem fetch_error_only_from_url (nsUrl apiEndpoint : List Char) (env : NetEnv) :
    ∀ e, (fetch_ns_text nsUrl apiEndpoint env).result = Except.error e →
      ∃ u, u ∈ (fetch_ns_text nsUrl apiEndpoint env).requests ∧
        _parse_url u = Except.error () := by
  intro e herr
  rcases Bool.dichotomy env.wlanFails with hw | hw
  case inr => simp [fetch_ns_text, hw] at herr
  rcases Bool.dichotomy env.wlanActive with ha | ha
  case inl => simp [fetch_ns_text, hw, ha] at herr
  rcases Bool.dichotomy env.wlanConnected with hc | hc
  case inl => simp [fetch_ns_text, hw, ha, hc] at herr
  by_cases hn : nsUrl = []
  case pos => simp [fetch_ns_text, hw, ha, hc, hn] at herr
  by_cases hm : env.memFree < 20000
  case pos => simp [fetch_ns_text, hw, ha, hc, hn, hm] at herr
  cases hr1 : _one_request env.req1 (nsUrl ++ ensure_count2 apiEndpoint) 2048 with
  | error e2 =>
    refine ⟨nsUrl ++ ensure_count2 apiEndpoint, ?_, ?_⟩
    · simp [fetch_ns_text, hw, ha, hc, hn, hm, hr1]
    · exact one_request_error_parse _ _ _ _ hr1
  | ok o =>
    obtain - | ⟨s1, hdrs1, b1⟩ := o
    · simp [fetch_ns_text, hw, ha, hc, hn, hm, hr1] at herr
    · obtain - | s1v := s1
      · simp [fetch_ns_text, hw, ha, hc, hn, hm, hr1] at herr
      · by_cases hrs : redirectStatus s1v = true
        · cases hloc : hdrGet hdrs1 ['l', 'o', 'c', 'a', 't', 'i', 'o', 'n'] with
          | none => simp [fetch_ns_text, hw, ha, hc, hn, hm, hr1, hrs, hloc] at herr
          | some loc =>
            by_cases hl0 : loc = []
            case pos =>
              simp [fetch_ns_text, hw, ha, hc, hn, hm, hr1, hrs, hloc, hl0] at herr
            cases hr2 : _one_request env.req2 loc 2048 with
            | error e2 =>
              refine ⟨loc, ?_, ?_⟩
              · simp [fetch_ns_text, hw, ha, hc, hn, hm, hr1, hrs, hloc, hl0, hr2]
              · exact one_request_error_parse _ _ _ _ hr2
            | ok o2 =>
              obtain - | ⟨s2, h2, b2⟩ := o2
              · simp [fetch_ns_text, hw, ha, hc, hn, hm, hr1, hrs, hloc, hl0, hr2] at herr
              · obtain - | s2v := s2
                · simp [fetch_ns_text, hw, ha, hc, hn, hm, hr1, hrs, hloc, hl0, hr2] at herr
                · by_cases h200 : s2v = 200 <;> by_cases hb2 : b2 = [] <;>
                    simp [fetch_ns_text, hw, ha, hc, hn, hm, hr1, hrs, hloc, hl0, hr2,
                      h200, hb2] at herr
        · by_cases h200 : s1v = 200
          · subst h200
            by_cases hb1 : b1 = [] <;>
              simp [fetch_ns_text, hw, ha, hc, hn, hm, hr1, hb1,
                show redirectStatus 200 = false from by decide] at herr
          · by_cases hb1 : b1 = [] <;>
              simp [fetch_ns_text, hw, ha, hc, hn, hm, hr1, hrs, h200, hb1] at herr

/-- Claim C2 (amended): fetch_ns_text returns the decoded body text or null
for every environment EXCEPT that a URL the code parses (the configured one,
or a redirect Location) lacking an http/https scheme or carrying a
non-integer port makes _parse_url raise, and the ValueError propagates out
of fetch_ns_text (the outer try has only a finally); link down, WLAN-check
failure, blank base URL, low memory, socket/TLS failure, receive timeout,
missing header/body boundary, and a non-200 non-redirect terminal status
all yield null. -/
theorem fetch_ns_text_error_handling (nsUrl apiEndpoint : List Char) (env : NetEnv) :
    (∀ e, (fetch_ns_text nsUrl apiEndpoint env).result = Except.error e →
      ∃ u, u ∈ (fetch_ns_text nsUrl apiEndpoint env).requests ∧
        _parse_url u = Except.error ()) ∧
    (env.wlanFails = true →
      (fetch_ns_text nsUrl apiEndpoint env).result = Except.ok none) ∧
    (env.wlanActive = false ∨ env.wlanConnected = false →
      (fetch_ns_text nsUrl apiEndpoint env).result = Except.ok none) ∧
    (nsUrl = [] → (fetch_ns_text nsUrl apiEndpoint env).result = Except.ok none) ∧
    (env.memFree < 20000 →
      (fetch_ns_text nsUrl apiEndpoint env).result = Except.ok none) ∧
    (∀ v, _parse_url (nsUrl ++ ensure_count2 apiEndpoint) = Except.ok v →
      env.req1.sockFail = true →
      (fetch_ns_text nsUrl apiEndpoint env).result = Except.ok none) ∧
    (∀ v, _parse_url (nsUrl ++ ensure_count2 apiEndpoint) = Except.ok v →
      recvLoop env.req1.chunks env.req1.budget env.req1.closedAfter (2048 + 1024) [] = none →
      (fetch_ns_text nsUrl apiEndpoint env).result = Except.ok none) ∧
    (∀ v raw, _parse_url (nsUrl ++ ensure_count2 apiEndpoint) = Except.ok v →
      recvLoop env.req1.chunks env.req1.budget env.req1.closedAfter (2048 + 1024) []
        = some raw →
      subIdx CRLFCRLF raw = none →
      (fetch_ns_text nsUrl apiEndpoint env).result = Except.ok none) ∧
    (∀ s hdrs b, _one_request env.req1 (nsUrl ++ ensure_count2 apiEndpoint) 2048
        = Except.ok (some (some s, hdrs, b)) →
      redirectStatus s = false → s ≠ 200 →
      (fetch_ns_text nsUrl apiEndpoint env).result = Except.ok none) := by
  refine ⟨fetch_error_only_from_url nsUrl apiEndpoint env,
    fetch_wlan_exc_none nsUrl apiEndpoint env,
    fetch_link_down_none nsUrl apiEndpoint env,
    fetch_blank_url_none nsUrl apiEndpoint env,
    fetch_low_mem_none nsUrl apiEndpoint env,
    fun v hp hs => fetch_req1_none nsUrl apiEndpoint env
      (one_request_sockfail_none _ _ _ v hp hs),
    fun v hp hr => fetch_req1_none nsUrl apiEndpoint env
      (one_request_recv_timeout_none _ _ _ v hp hr),
    fun v raw hp hr hsep => fetch_req1_none nsUrl apiEndpoint env
      (one_request_no_split_none _ _ _ v raw hp hr hsep),
    fun s hdrs b hr hnr hne =>
      fetch_non200_none nsUrl apiEndpoint env s hdrs b hr hnr hne⟩

theorem fetch_ns_text_error_handling_witness :
    (fetch_ns_text "http://h".toList "/p".toList
      ⟨true, true, true, 20000, ⟨false, [], true, 0⟩, ⟨false, [], true, 0⟩⟩).result
      = Except.ok none :=
  (fetch_ns_text_error_handling "http://h".toList "/p".toList
    ⟨true, true, true, 20000, ⟨false, [], true, 0⟩, ⟨false, [], true, 0⟩⟩).2.1 rfl

/-- Claim C2 (counterexample): with the link up, ample memory and a nonblank
configured URL that lacks the http/https scheme, fetch_ns_text raises (the
ValueError of _parse_url propagates: the result is an exception, not null),
contradicting the claim that a URL without a scheme yields null. -/
theorem fetch_raises_on_schemeless_url_cx :
    (fetch_ns_text "example.com".toList "/e".toList
      ⟨false, true, true, 20000, ⟨false, [], true, 9⟩, ⟨false, [], true, 9⟩⟩).result
      = Except.error () := by
  decide

/-- Claim C7 (amended): with the first response carrying a redirect status
(301/302/303/307/308): a Location header with a NONEMPTY value triggers
exactly one follow-up request to that value, and a non-200 second status
(redirects included, so no second redirect is ever followed) yields null; a
redirect without a Location header yields null with no follow-up (an
empty-valued Location header also yields null with no follow-up, see the
counterexample); a non-redirect terminal status other than 200 yields null
after the single request. -/
theorem fetch_single_redirect_hop (nsUrl apiEndpoint : List Char) (env : NetEnv)
    (s : Int) (hdrs : List (List Char × List Char)) (b : List Char)
    (hw : env.wlanFails = false) (ha : env.wlanActive = true)
    (hc : env.wlanConnected = true) (hn : nsUrl ≠ []) (hm : ¬ env.memFree < 20000)
    (hr : _one_request env.req1 (nsUrl ++ ensure_count2 apiEndpoint) 2048
      = Except.ok (some (some s, hdrs, b))) :
    (redirectStatus s = true → ∀ loc, hdrGet hdrs "location".toList = some loc →
      loc ≠ [] →
      (fetch_ns_text nsUrl apiEndpoint env).requests
        = [nsUrl ++ ensure_count2 apiEndpoint, loc]) ∧
    (redirectStatus s = true → ∀ loc, hdrGet hdrs "location".toList = some loc →
      loc ≠ [] →
      ∀ s2 h2 b2, _one_request env.req2 loc 2048 = Except.ok (some (some s2, h2, b2)) →
        s2 ≠ 200 →
        (fetch_ns_text nsUrl apiEndpoint env).result = Except.ok none) ∧
    (redirectStatus s = true → hdrGet hdrs "location".toList = none →
      (fetch_ns_text nsUrl apiEndpoint env).result = Except.ok none ∧
      (fetch_ns_text nsUrl apiEndpoint env).requests
        = [nsUrl ++ ensure_count2 apiEndpoint]) ∧
    (redirectStatus s = false → s ≠ 200 →
      (fetch_ns_text nsUrl apiEndpoint env).result = Except.ok none ∧
      (fetch_ns_text nsUrl apiEndpoint env).requests
        = [nsUrl ++ ensure_count2 apiEndpoint]) := by
  refine ⟨?_, ?_, ?_, ?_⟩
  · intro hrs loc hloc hne
    have hloc2 : hdrGet hdrs ['l', 'o', 'c', 'a', 't', 'i', 'o', 'n'] = some loc := hloc
    cases hr2 : _one_request env.req2 loc 2048 with
    | error e => simp [fetch_ns_text, hw, ha, hc, hn, hm, hr, hrs, hloc2, hne, hr2]
    | ok o =>
      obtain - | ⟨s2, h2, b2⟩ := o
      · simp [fetch_ns_text, hw, ha, hc, hn, hm, hr, hrs, hloc2, hne, hr2]
      · obtain - | s2v := s2
        · simp [fetch_ns_text, hw, ha, hc, hn, hm, hr, hrs, hloc2, hne, hr2]
        · by_cases h200 : s2v = 200 <;> by_cases hb2 : b2 = [] <;>
            simp [fetch_ns_text, hw, ha, hc, hn, hm, hr, hrs, hloc2, hne, hr2, h200, hb2]
  · intro hrs loc hloc hne s2 h2 b2 hr2 hs2
    have hloc2 : hdrGet hdrs ['l', 'o', 'c', 'a', 't', 'i', 'o', 'n'] = some loc := hloc
    simp [fetch_ns_text, hw, ha, hc, hn, hm, hr, hrs, hloc2, hne, hr2, hs2]
  · intro hrs hloc
    have hloc2 : hdrGet hdrs ['l', 'o', 'c', 'a', 't', 'i', 'o', 'n'] = none := hloc
    constructor <;> simp [fetch_ns_text, hw, ha, hc, hn, hm, hr, hrs, hloc2]
  · intro hrs hs2
    constructor <;> simp [fetch_ns_text, hw, ha, hc, hn, hm, hr, hrs, hs2]

theorem fetch_single_redirect_hop_witness :
    (fetch_ns_text "http://h".toList "/p".toList
      ⟨false, true, true, 20000,
        ⟨false, ["HTTP/1.1 301 M\r\nLocation: http://h2/x\r\n\r\nz".toList], true, 9⟩,
        ⟨false, ["HTTP/1.1 200 OK\r\n\r\nBODY".toList], true, 9⟩⟩).requests
      = ["http://h/p?count=2".toList, "http://h2/x".toList] := by
  have h := (fetch_single_redirect_hop "http://h".toList "/p".toList
    ⟨false, true, true, 20000,
      ⟨false, ["HTTP/1.1 301 M\r\nLocation: http://h2/x\r\n\r\nz".toList], true, 9⟩,
      ⟨false, ["HTTP/1.1 200 OK\r\n\r\nBODY".toList], true, 9⟩⟩
    301 [("location".toList, "http://h2/x".toList)] ['z']
    rfl rfl rfl (by decide) (by decide) (by decide)).1 (by decide)
    "http://h2/x".toList (by decide) (by decide)
  rw [h]
  rfl

/-- Claim C7 (counterexample): a redirect response whose Location header is
PRESENT but has an empty value triggers no follow-up request at all (the
code tests the truthiness of the value): the fetch returns null after a
single request, contradicting the claim that a present Location header
always triggers exactly one follow-up. -/
theorem fetch_redirect_empty_location_cx :
    fetch_ns_text "http://h".toList "/p".toList
      ⟨false, true, true, 20000,
        ⟨false, ["HTTP/1.1 301 M\r\nLocation:\r\n\r\nx".toList], true, 9⟩,
        ⟨false, [], true, 9⟩⟩
      = ⟨Except.ok none, ["http://h/p?count=2".toList]⟩ ∧
    _one_request (⟨false, ["HTTP/1.1 301 M\r\nLocation:\r\n\r\nx".toList], true, 9⟩ :
        ReqBehavior) "http://h/p?count=2".toList 2048
      = Except.ok (some (some 301, [("location".toList, [])], ['x'])) := by
  exact ⟨by decide, by decide⟩

theorem recvLoop_exceeds : ∀ (chunks : List (List Char)) (budget : Nat) (closed : Bool)
    (cap : Nat) (buf : List Char),
    (∀ c ∈ chunks, c ≠ []) → chunks.length ≤ budget → buf.length ≤ cap →
    cap < buf.length + (chunks.flatten).length →
    recvLoop chunks budget closed cap buf
      = some (buf ++ (chunks.flatten).take (cap - buf.length)) := by
  intro chunks
  induction chunks with
  | nil =>
    intro budget closed cap buf _ _ hbuf hcap
    simp only [List.flatten_nil, List.length_nil, Nat.add_zero] at hcap
    exact absurd hcap (by omega)
  | cons ch rest ih =>
    intro budget closed cap buf hne hlen hbuf hcap
    cases budget with
    | zero => exact absurd hlen (by simp)
    | succ b =>
      rw [recvLoop, if_neg (hne ch (by simp))]
      by_cases hful : cap < buf.length + ch.length
      · rw [if_pos hful]
        rw [List.flatten_cons, List.take_append_of_le_length (by omega)]
      · rw [if_neg hful]
        rw [ih b closed cap (buf ++ ch) (fun c hc => hne c (by simp [hc]))
          (by simpa using hlen) (by simp only [List.length_append]; omega)
          (by simp only [List.flatten_cons, List.length_append] at hcap ⊢; omega)]
        congr 1
        rw [show cap - (buf ++ ch).length = cap - buf.length - ch.length from by
            rw [List.length_append]
            exact (Nat.sub_sub _ _ _).symm]
        rw [List.flatten_cons, List.take_append_eq_append_take,
          List.take_of_length_le (show ch.length ≤ cap - buf.length from by omega),
          List.append_assoc]

theorem subIdx_isSome_of_pos (key : List Char) : ∀ (l : List Char) (p : Nat),
    key.isPrefixOf (l.drop p) = true → (subIdx key l).isSome = true := by
  intro l
  induction l with
  | nil =>
    intro p h
    rw [List.drop_nil] at h
    exact subIdx_isSome_of_head key [] h
  | cons c rest ih =>
    intro p h
    cases p with
    | zero => exact subIdx_isSome_of_head _ _ (by simpa using h)
    | succ q =>
      rw [subIdx_isSome_cons, ih q (by simpa using h)]
      simp

theorem isPrefixOf_take_of (key t : List Char) (k : Nat) (h : key.isPrefixOf t = true)
    (hk : key.length ≤ k) : key.isPrefixOf (t.take k) = true := by
  have hp := List.prefix_iff_eq_take.mp (List.isPrefixOf_iff_prefix.mp h)
  apply List.isPrefixOf_iff_prefix.mpr
  rw [List.prefix_iff_eq_take, List.take_take, Nat.min_eq_left hk]
  exact hp

/-- Claim C8: the receive loop stops as soon as accepting the next chunk
would push the buffer past CAP = 2048 + 1024, a stream whose total exceeds
the cap leaves the buffer at exactly CAP bytes (the buffer equals the first
CAP bytes of the stream); the returned body is the at-most-2048-byte slice
after the first CRLFCRLF boundary; and a boundary that lies within the
first CAP bytes is still found in the truncated buffer, so the response
stays parseable. -/
theorem recv_cap_and_truncation :
    (∀ (chunks : List (List Char)) (closed : Bool) (budget : Nat),
      (∀ c ∈ chunks, c ≠ []) → chunks.length ≤ budget →
      2048 + 1024 < (chunks.flatten).length →
      recvLoop chunks budget closed (2048 + 1024) []
          = some ((chunks.flatten).take (2048 + 1024)) ∧
        ((chunks.flatten).take (2048 + 1024)).length = 2048 + 1024) ∧
    (∀ (raw : List Char) (sep : Nat), subIdx CRLFCRLF raw = some sep →
      ((raw.drop (sep + 4)).take 2048).length ≤ 2048) ∧
    (∀ (stream : List Char) (p : Nat),
      CRLFCRLF.isPrefixOf (stream.drop p) = true → p + 4 ≤ 2048 + 1024 →
      (subIdx CRLFCRLF (stream.take (2048 + 1024))).isSome = true) := by
  refine ⟨?_, ?_, ?_⟩
  · intro chunks closed budget hne hlen hbig
    constructor
    · have h := recvLoop_exceeds chunks budget closed (2048 + 1024) [] hne hlen
        (by simp) (by simpa using hbig)
      rw [h, List.nil_append, List.length_nil, Nat.sub_zero]
    · rw [List.length_take]
      omega
  · intro raw sep _
    rw [List.length_take]
    omega
  · intro stream p hpre hcap
    apply subIdx_isSome_of_pos CRLFCRLF (stream.take (2048 + 1024)) p
    rw [List.drop_take]
    exact isPrefixOf_take_of _ _ _ hpre (by rw [show CRLFCRLF.length = 4 from rfl]; omega)

theorem recv_cap_and_truncation_witness :
    ((∀ c ∈ [List.replicate 2000 'a', List.replicate 2000 'b'], c ≠ []) ∧
      2048 + 1024 < ([List.replicate 2000 'a', List.replicate 2000 'b'].flatten).length) ∧
    recvLoop [List.replicate 2000 'a', List.replicate 2000 'b'] 5 true (2048 + 1024) []
      = some (([List.replicate 2000 'a', List.replicate 2000 'b'].flatten).take
          (2048 + 1024)) := by
  have hlen : 2048 + 1024
      < ([List.replicate 2000 'a', List.replicate 2000 'b'].flatten).length := by
    rw [show [List.replicate 2000 'a', List.replicate 2000 'b'].flatten
        = List.replicate 2000 'a' ++ List.replicate 2000 'b' from by
          rw [List.flatten_cons, List.flatten_cons, List.flatten_nil, List.append_nil]]
    rw [List.length_append, List.length_replicate, List.length_replicate]
    omega
  refine ⟨⟨by decide, hlen⟩, ?_⟩
  exact (recv_cap_and_truncation.1 [List.replicate 2000 'a', List.replicate 2000 'b']
    true 5 (by decide) (by decide) hlen).1

/-- Claim C4: in a render pass with data already on screen, if every
computed field value (age text+color, heartbeat on/off, BG text+color,
arrow text+color, delta text, battery glyph+position) equals the value
cached in ScreenState, the pass emits zero clears, draws and flushes and
leaves the state unchanged; and when exactly one field changed (stated
for each of the six fields), the emitted events are exactly that field's
clear of the union of its old and new glyph bounding boxes plus its own
draw call(s), followed by a single batched flushRect of precisely that
union rectangle - no other field's pixels are touched. -/
theorem render_batched_flush_rule :
    (∀ (p : Panel) (f : Fonts) (cfg : RenderCfg) (r : Reading) (hb usb : Bool)
       (nowS : Int) (st : ScreenState),
       st.last_have_data = true →
       st.age_text = some (age_text_val nowS r.time_ms) →
       st.age_color = some (age_color_val cfg nowS r.time_ms) →
       st.heart_on = some hb →
       st.bg_text = some (fmt_bg cfg.units r.bg) →
       st.bg_color = some (bg_color_val cfg r.bg) →
       st.arrow_text = some r.arrow →
       st.arrow_color = some (arrow_color_val cfg r.direction) →
       st.delta_text = some (fmt_delta cfg.units r.delta) →
       st.batt_x = some (batt_text_val usb) →
       st.batt_pos = some (10, 8) →
       draw_all_fields_if_needed p f cfg (some r) hb usb nowS st = ([], st)) ∧
    (∀ (p : Panel) (f : Fonts) (cfg : RenderCfg) (r : Reading) (hb usb : Bool)
       (nowS : Int) (st : ScreenState) (oldT : List Char) (oldC : Nat),
       p.hasShowRect = true →
       st.last_have_data = true →
       st.age_text = some oldT →
       st.age_color = some oldC →
       ¬(oldT = age_text_val nowS r.time_ms ∧ oldC = age_color_val cfg nowS r.time_ms) →
       st.heart_on = some hb →
       st.bg_text = some (fmt_bg cfg.units r.bg) →
       st.bg_color = some (bg_color_val cfg r.bg) →
       st.arrow_text = some r.arrow →
       st.arrow_color = some (arrow_color_val cfg r.direction) →
       st.delta_text = some (fmt_delta cfg.units r.delta) →
       st.batt_x = some (batt_text_val usb) →
       st.batt_pos = some (10, 8) →
       ∃ d : Rect,
         d = unionR
               (_bbox_text f.wAgeSmall oldT
                 ((p.width - f.wAgeSmall.strLen oldT).fdiv 2) 6 3)
               (_bbox_text f.wAgeSmall (age_text_val nowS r.time_ms)
                 ((p.width - f.wAgeSmall.strLen (age_text_val nowS r.time_ms)).fdiv 2) 6 3) ∧
         draw_all_fields_if_needed p f cfg (some r) hb usb nowS st =
           (_clear_rect p d BLACK ++
             [Ev.text ((p.width - f.wAgeSmall.strLen (age_text_val nowS r.time_ms)).fdiv 2) 6
                (age_text_val nowS r.time_ms) (age_color_val cfg nowS r.time_ms),
              Ev.flushRect d.x d.y d.w d.h],
            { st with age_text := some (age_text_val nowS r.time_ms)
                      age_color := some (age_color_val cfg nowS r.time_ms) })) ∧
    (∀ (p : Panel) (f : Fonts) (cfg : RenderCfg) (r : Reading) (hb usb : Bool)
       (nowS : Int) (st : ScreenState) (ob : Bool),
       p.hasShowRect = true →
       st.last_have_data = true →
       st.age_text = some (age_text_val nowS r.time_ms) →
       st.age_color = some (age_color_val cfg nowS r.time_ms) →
       st.heart_on = some ob →
       ob ≠ hb →
       st.bg_text = some (fmt_bg cfg.units r.bg) →
       st.bg_color = some (bg_color_val cfg r.bg) →
       st.arrow_text = some r.arrow →
       st.arrow_color = some (arrow_color_val cfg r.direction) →
       st.delta_text = some (fmt_delta cfg.units r.delta) →
       st.batt_x = some (batt_text_val usb) →
       st.batt_pos = some (10, 8) →
       ∃ d : Rect,
         d = ⟨p.width - 10 - f.wHeart.strLen "T".toList - 2,
              6 + (f.wAgeSmall.fheight - f.wHeart.fheight).fdiv 4 - 2,
              f.wHeart.strLen "T".toList + 2 * 2,
              f.wHeart.fheight + 2 * 2⟩ ∧
         draw_all_fields_if_needed p f cfg (some r) hb usb nowS st =
           (_clear_rect p d BLACK ++
             (if hb then
               [Ev.text (p.width - 10 - f.wHeart.strLen "T".toList)
                 (6 + (f.wAgeSmall.fheight - f.wHeart.fheight).fdiv 4) "T".toList RED]
              else []) ++
             [Ev.flushRect d.x d.y d.w d.h],
            { st with heart_on := some hb })) ∧
    (∀ (p : Panel) (f : Fonts) (cfg : RenderCfg) (r : Reading) (hb usb : Bool)
       (nowS : Int) (st : ScreenState) (oldT : List Char) (oldC : Nat),
       p.hasShowRect = true →
       st.last_have_data = true →
       st.age_text = some (age_text_val nowS r.time_ms) →
       st.age_color = some (age_color_val cfg nowS r.time_ms) →
       st.heart_on = some hb →
       st.bg_text = some oldT →
       st.bg_color = some oldC →
       ¬(oldT = fmt_bg cfg.units r.bg ∧ oldC = bg_color_val cfg r.bg) →
       st.arrow_text = some r.arrow →
       st.arrow_color = some (arrow_color_val cfg r.direction) →
       st.delta_text = some (fmt_delta cfg.units r.delta) →
       st.batt_x = some (batt_text_val usb) →
       st.batt_pos = some (10, 8) →
       ∃ d : Rect,
         d = unionR
               ⟨(p.width - _big_text_width f.big oldT 2).fdiv 2 - 6,
                (p.height - f.big.height).fdiv 2 - 6,
                _big_text_width f.big oldT 2 + 12, f.big.height + 12⟩
               ⟨(p.width - _big_text_width f.big (fmt_bg cfg.units r.bg) 2).fdiv 2 - 6,
                (p.height - f.big.height).fdiv 2 - 6,
                _big_text_width f.big (fmt_bg cfg.units r.bg) 2 + 12, f.big.height + 12⟩ ∧
         draw_all_fields_if_needed p f cfg (some r) hb usb nowS st =
           (_clear_rect p d BLACK ++
             [Ev.bigText ((p.width - _big_text_width f.big (fmt_bg cfg.units r.bg) 2).fdiv 2)
                ((p.height - f.big.height).fdiv 2) (fmt_bg cfg.units r.bg)
                (bg_color_val cfg r.bg),
              Ev.flushRect d.x d.y d.w d.h],
            { st with bg_text := some (fmt_bg cfg.units r.bg)
                      bg_color := some (bg_color_val cfg r.bg) })) ∧
    (∀ (p : Panel) (f : Fonts) (cfg : RenderCfg) (r : Reading) (hb usb : Bool)
       (nowS : Int) (st : ScreenState) (oldT : List Char) (oldC : Nat),
       p.hasShowRect = true →
       st.last_have_data = true →
       st.age_text = some (age_text_val nowS r.time_ms) →
       st.age_color = some (age_color_val cfg nowS r.time_ms) →
       st.heart_on = some hb →
       st.bg_text = some (fmt_bg cfg.units r.bg) →
       st.bg_color = some (bg_color_val cfg r.bg) →
       st.arrow_text = some oldT →
       st.arrow_color = some oldC →
       ¬(oldT = r.arrow ∧ oldC = arrow_color_val cfg r.direction) →
       st.delta_text = some (fmt_delta cfg.units r.delta) →
       st.batt_x = some (batt_text_val usb) →
       st.batt_pos = some (10, 8) →
       ∃ d : Rect,
         d = unionR
               (_bbox_text f.wArrow oldT 10
                 (p.height - max f.wSmall.fheight f.wArrow.fheight - 1 +
                   (max f.wSmall.fheight f.wArrow.fheight - f.wArrow.fheight).fdiv 2 + -2) 3)
               (_bbox_text f.wArrow r.arrow 10
                 (p.height - max f.wSmall.fheight f.wArrow.fheight - 1 +
                   (max f.wSmall.fheight f.wArrow.fheight - f.wArrow.fheight).fdiv 2 + -2) 3) ∧
         draw_all_fields_if_needed p f cfg (some r) hb usb nowS st =
           (_clear_rect p d BLACK ++
             [Ev.text 10
                (p.height - max f.wSmall.fheight f.wArrow.fheight - 1 +
                  (max f.wSmall.fheight f.wArrow.fheight - f.wArrow.fheight).fdiv 2 + -2)
                r.arrow (arrow_color_val cfg r.direction),
              Ev.flushRect d.x d.y d.w d.h],
            { st with arrow_text := some r.arrow
                      arrow_color := some (arrow_color_val cfg r.direction) })) ∧
    (∀ (p : Panel) (f : Fonts) (cfg : RenderCfg) (r : Reading) (hb usb : Bool)
       (nowS : Int) (st : ScreenState) (c sign : Char) (tl valNum : List Char),
       p.hasShowRect = true →
       st.last_have_data = true →
       st.age_text = some (age_text_val nowS r.time_ms) →
       st.age_color = some (age_color_val cfg nowS r.time_ms) →
       st.heart_on = some hb →
       st.bg_text = some (fmt_bg cfg.units r.bg) →
       st.bg_color = some (bg_color_val cfg r.bg) →
       st.arrow_text = some r.arrow →
       st.arrow_color = some (arrow_color_val cfg r.direction) →
       st.delta_text = some (c :: tl) →
       fmt_delta cfg.units r.delta = sign :: valNum →
       c :: tl ≠ sign :: valNum →
       st.batt_x = some (batt_text_val usb) →
       st.batt_pos = some (10, 8) →
       ∃ d : Rect,
         d = unionR
               ⟨p.width - 4 - (f.wDeltaIcon.strLen [c] + 5 + f.wSmall.strLen tl) - 6,
                p.height - max f.wSmall.fheight f.wArrow.fheight - 1 +
                  (max f.wSmall.fheight f.wArrow.fheight - f.wSmall.fheight).fdiv 2 - 8,
                f.wDeltaIcon.strLen [c] + 5 + f.wSmall.strLen tl + 12,
                max f.wSmall.fheight f.wDeltaIcon.fheight + 16⟩
               ⟨p.width - 4 - f.wSmall.strLen valNum - f.wDeltaIcon.strLen [sign] - 5 - 6,
                min
                  (p.height - max f.wSmall.fheight f.wArrow.fheight - 1 +
                     (max f.wSmall.fheight f.wArrow.fheight - f.wSmall.fheight).fdiv 2 +
                     (f.wSmall.fheight - f.wDeltaIcon.fheight).fdiv 2 + -7)
                  (p.height - max f.wSmall.fheight f.wArrow.fheight - 1 +
                     (max f.wSmall.fheight f.wArrow.fheight - f.wSmall.fheight).fdiv 2) - 8,
                p.width - 4 -
                  (p.width - 4 - f.wSmall.strLen valNum - f.wDeltaIcon.strLen [sign] - 5) + 12,
                max f.wSmall.fheight f.wDeltaIcon.fheight + 16⟩ ∧
         draw_all_fields_if_needed p f cfg (some r) hb usb nowS st =
           (_clear_rect p d BLACK ++
             [Ev.text (p.width - 4 - f.wSmall.strLen valNum - f.wDeltaIcon.strLen [sign] - 5)
                (p.height - max f.wSmall.fheight f.wArrow.fheight - 1 +
                  (max f.wSmall.fheight f.wArrow.fheight - f.wSmall.fheight).fdiv 2 +
                  (f.wSmall.fheight - f.wDeltaIcon.fheight).fdiv 2 + -7)
                [sign] WHITE,
              Ev.text (p.width - 4 - f.wSmall.strLen valNum)
                (p.height - max f.wSmall.fheight f.wArrow.fheight - 1 +
                  (max f.wSmall.fheight f.wArrow.fheight - f.wSmall.fheight).fdiv 2)
                valNum WHITE,
              Ev.flushRect d.x d.y d.w d.h],
            { st with delta_text := some (sign :: valNum) })) ∧
    (∀ (p : Panel) (f : Fonts) (cfg : RenderCfg) (r : Reading) (hb usb : Bool)
       (nowS : Int) (st : ScreenState) (obx : List Char),
       p.hasShowRect = true →
       st.last_have_data = true →
       st.age_text = some (age_text_val nowS r.time_ms) →
       st.age_color = some (age_color_val cfg nowS r.time_ms) →
       st.heart_on = some hb →
       st.bg_text = some (fmt_bg cfg.units r.bg) →
       st.bg_color = some (bg_color_val cfg r.bg) →
       st.arrow_text = some r.arrow →
       st.arrow_color = some (arrow_color_val cfg r.direction) →
       st.delta_text = some (fmt_delta cfg.units r.delta) →
       st.batt_x = some obx →
       obx ≠ batt_text_val usb →
       st.batt_pos = some (10, 8) →
       ∃ d : Rect,
         d = unionR ⟨10, 8, f.wBatt.strLen ['0'], f.wBatt.fheight⟩
               ⟨10, 8, f.wBatt.strLen ['0'], f.wBatt.fheight⟩ ∧
         draw_all_fields_if_needed p f cfg (some r) hb usb nowS st =
           ([Ev.fillRect 10 8 (f.wBatt.strLen ['0']) f.wBatt.fheight BLACK,
             Ev.fillRect 10 8 (f.wBatt.strLen ['0']) f.wBatt.fheight BLACK] ++
             (if usb then [] else [Ev.text 10 8 ['0'] GREEN]) ++
             [Ev.flushRect d.x d.y d.w d.h],
            { st with batt_x := some (batt_text_val usb)
                      batt_pos := some (10, 8) })) := by
  refine ⟨?_, ?_, ?_, ?_, ?_, ?_, ?_⟩
  · intro p f cfg r hb usb nowS st hld h1 h2 h3 h4 h5 h6 h7 h8 h9 h10
    simp [draw_all_fields_if_needed, hld, _draw_age_if_changed, _draw_heart_if_changed,
      _draw_bg_if_changed, _draw_arrow_if_changed, _draw_delta_if_changed,
      _draw_batt_x_if_changed, batt_text_val,
      h1, h2, h3, h4, h5, h6, h7, h8, h9, h10]
  · intro p f cfg r hb usb nowS st oldT oldC hsr hld hold1 hold2 hne h3 h4 h5 h6 h7 h8 h9 h10
    refine ⟨_, rfl, ?_⟩
    simp [draw_all_fields_if_needed, hld, hsr, _draw_age_if_changed, _draw_heart_if_changed,
      _draw_bg_if_changed, _draw_arrow_if_changed, _draw_delta_if_changed,
      _draw_batt_x_if_changed, batt_text_val, _union_rect,
      hold1, hold2, hne, h3, h4, h5, h6, h7, h8, h9, h10]
  · intro p f cfg r hb usb nowS st ob hsr hld h1 h2 hold hne h4 h5 h6 h7 h8 h9 h10
    refine ⟨_, rfl, ?_⟩
    simp [draw_all_fields_if_needed, hld, hsr, _draw_age_if_changed, _draw_heart_if_changed,
      _draw_bg_if_changed, _draw_arrow_if_changed, _draw_delta_if_changed,
      _draw_batt_x_if_changed, batt_text_val, _union_rect,
      h1, h2, hold, hne, h4, h5, h6, h7, h8, h9, h10]
  · intro p f cfg r hb usb nowS st oldT oldC hsr hld h1 h2 h3 hold1 hold2 hne h6 h7 h8 h9 h10
    refine ⟨_, rfl, ?_⟩
    simp [draw_all_fields_if_needed, hld, hsr, _draw_age_if_changed, _draw_heart_if_changed,
      _draw_bg_if_changed, _draw_arrow_if_changed, _draw_delta_if_changed,
      _draw_batt_x_if_changed, batt_text_val, _union_rect,
      h1, h2, h3, hold1, hold2, hne, h6, h7, h8, h9, h10]
  · intro p f cfg r hb usb nowS st oldT oldC hsr hld h1 h2 h3 h4 h5 hold1 hold2 hne h8 h9 h10
    refine ⟨_, rfl, ?_⟩
    simp [draw_all_fields_if_needed, hld, hsr, _draw_age_if_changed, _draw_heart_if_changed,
      _draw_bg_if_changed, _draw_arrow_if_changed, _draw_delta_if_changed,
      _draw_batt_x_if_changed, batt_text_val, _union_rect,
      h1, h2, h3, h4, h5, hold1, hold2, hne, h8, h9, h10]
  · intro p f cfg r hb usb nowS st c sign tl valNum hsr hld h1 h2 h3 h4 h5 h6 h7 hold hfd
      hne h9 h10
    refine ⟨_, rfl, ?_⟩
    simp [draw_all_fields_if_needed, hld, hsr, _draw_age_if_changed, _draw_heart_if_changed,
      _draw_bg_if_changed, _draw_arrow_if_changed, _draw_delta_if_changed,
      _draw_batt_x_if_changed, batt_text_val, _union_rect,
      h1, h2, h3, h4, h5, h6, h7, hold, hfd, hne, h9, h10]
  · intro p f cfg r hb usb nowS st obx hsr hld h1 h2 h3 h4 h5 h6 h7 h8 hold hne h10
    refine ⟨_, rfl, ?_⟩
    cases usb <;>
      (simp [batt_text_val] at hne) <;>
      simp [draw_all_fields_if_needed, hld, hsr, _draw_age_if_changed, _draw_heart_if_changed,
        _draw_bg_if_changed, _draw_arrow_if_changed, _draw_delta_if_changed,
        _draw_batt_x_if_changed, batt_text_val, _union_rect,
        h1, h2, h3, h4, h5, h6, h7, h8, hold, hne, h10]

theorem render_batched_flush_rule_witness :
    (draw_all_fields_if_needed ⟨480, 320, true⟩
      ⟨⟨fun s => 10 * (s.length : Int), 20⟩, ⟨fun s => 10 * (s.length : Int), 20⟩,
       ⟨fun s => 10 * (s.length : Int), 20⟩, ⟨fun s => 10 * (s.length : Int), 20⟩,
       ⟨fun s => 10 * (s.length : Int), 20⟩, ⟨fun s => 10 * (s.length : Int), 20⟩,
       ⟨fun _ => some 30, 60⟩⟩
      ⟨"mgdl".toList, 4, 10, 20, false, false⟩
      (some ⟨100, 0, "Flat".toList, "B".toList, none⟩) true false 60
      ⟨some "1 min ago".toList, some WHITE, some (fmt_bg "mgdl".toList 100),
       some (bg_color_val ⟨"mgdl".toList, 4, 10, 20, false, false⟩ 100),
       some "B".toList, some WHITE, some [], some true, some ['0'], some (10, 8), true⟩
      = ([],
         ⟨some "1 min ago".toList, some WHITE, some (fmt_bg "mgdl".toList 100),
       some (bg_color_val ⟨"mgdl".toList, 4, 10, 20, false, false⟩ 100),
       some "B".toList, some WHITE, some [], some true, some ['0'], some (10, 8), true⟩)) ∧
    (∃ d : Rect,
      d = unionR ⟨232, 3, 16, 26⟩ ⟨192, 3, 96, 26⟩ ∧
      draw_all_fields_if_needed ⟨480, 320, true⟩
      ⟨⟨fun s => 10 * (s.length : Int), 20⟩, ⟨fun s => 10 * (s.length : Int), 20⟩,
       ⟨fun s => 10 * (s.length : Int), 20⟩, ⟨fun s => 10 * (s.length : Int), 20⟩,
       ⟨fun s => 10 * (s.length : Int), 20⟩, ⟨fun s => 10 * (s.length : Int), 20⟩,
       ⟨fun _ => some 30, 60⟩⟩
      ⟨"mgdl".toList, 4, 10, 20, false, false⟩
      (some ⟨100, 0, "Flat".toList, "B".toList, none⟩) true false 60
      ⟨some ['x'], some WHITE, some (fmt_bg "mgdl".toList 100),
       some (bg_color_val ⟨"mgdl".toList, 4, 10, 20, false, false⟩ 100),
       some "B".toList, some WHITE, some [], some true, some ['0'], some (10, 8), true⟩
        = (_clear_rect ⟨480, 320, true⟩ d BLACK ++
            [Ev.text 195 6 "1 min ago".toList WHITE, Ev.flushRect d.x d.y d.w d.h],
           ⟨some "1 min ago".toList, some WHITE, some (fmt_bg "mgdl".toList 100),
       some (bg_color_val ⟨"mgdl".toList, 4, 10, 20, false, false⟩ 100),
       some "B".toList, some WHITE, some [], some true, some ['0'], some (10, 8), true⟩)) ∧
    (∃ d : Rect,
      d = ⟨458, 4, 14, 24⟩ ∧
      draw_all_fields_if_needed ⟨480, 320, true⟩
      ⟨⟨fun s => 10 * (s.length : Int), 20⟩, ⟨fun s => 10 * (s.length : Int), 20⟩,
       ⟨fun s => 10 * (s.length : Int), 20⟩, ⟨fun s => 10 * (s.length : Int), 20⟩,
       ⟨fun s => 10 * (s.length : Int), 20⟩, ⟨fun s => 10 * (s.length : Int), 20⟩,
       ⟨fun _ => some 30, 60⟩⟩
      ⟨"mgdl".toList, 4, 10, 20, false, false⟩
      (some ⟨100, 0, "Flat".toList, "B".toList, none⟩) true false 60
      ⟨some "1 min ago".toList, some WHITE, some (fmt_bg "mgdl".toList 100),
       some (bg_color_val ⟨"mgdl".toList, 4, 10, 20, false, false⟩ 100),
       some "B".toList, some WHITE, some [], some false, some ['0'], some (10, 8), true⟩
        = (_clear_rect ⟨480, 320, true⟩ d BLACK ++
            [Ev.text 460 6 "T".toList RED] ++
            [Ev.flushRect d.x d.y d.w d.h],
           ⟨some "1 min ago".toList, some WHITE, some (fmt_bg "mgdl".toList 100),
       some (bg_color_val ⟨"mgdl".toList, 4, 10, 20, false, false⟩ 100),
       some "B".toList, some WHITE, some [], some true, some ['0'], some (10, 8), true⟩)) ∧
    (∃ d : Rect,
      d = unionR ⟨203, 124, 74, 72⟩
            ⟨(480 - _big_text_width ⟨fun _ => some 30, 60⟩ (fmt_bg "mgdl".toList 100) 2).fdiv 2 - 6, 124,
             _big_text_width ⟨fun _ => some 30, 60⟩ (fmt_bg "mgdl".toList 100) 2 + 12, 72⟩ ∧
      draw_all_fields_if_needed ⟨480, 320, true⟩
      ⟨⟨fun s => 10 * (s.length : Int), 20⟩, ⟨fun s => 10 * (s.length : Int), 20⟩,
       ⟨fun s => 10 * (s.length : Int), 20⟩, ⟨fun s => 10 * (s.length : Int), 20⟩,
       ⟨fun s => 10 * (s.length : Int), 20⟩, ⟨fun s => 10 * (s.length : Int), 20⟩,
       ⟨fun _ => some 30, 60⟩⟩
      ⟨"mgdl".toList, 4, 10, 20, false, false⟩
      (some ⟨100, 0, "Flat".toList, "B".toList, none⟩) true false 60
      ⟨some "1 min ago".toList, some WHITE, some "99".toList,
       some (bg_color_val ⟨"mgdl".toList, 4, 10, 20, false, false⟩ 100),
       some "B".toList, some WHITE, some [], some true, some ['0'], some (10, 8), true⟩
        = (_clear_rect ⟨480, 320, true⟩ d BLACK ++
            [Ev.bigText ((480 - _big_text_width ⟨fun _ => some 30, 60⟩ (fmt_bg "mgdl".toList 100) 2).fdiv 2) 130
               (fmt_bg "mgdl".toList 100)
               (bg_color_val ⟨"mgdl".toList, 4, 10, 20, false, false⟩ 100),
             Ev.flushRect d.x d.y d.w d.h],
           ⟨some "1 min ago".toList, some WHITE, some (fmt_bg "mgdl".toList 100),
       some (bg_color_val ⟨"mgdl".toList, 4, 10, 20, false, false⟩ 100),
       some "B".toList, some WHITE, some [], some true, some ['0'], some (10, 8), true⟩)) ∧
    (∃ d : Rect,
      d = unionR ⟨7, 294, 16, 26⟩ ⟨7, 294, 16, 26⟩ ∧
      draw_all_fields_if_needed ⟨480, 320, true⟩
      ⟨⟨fun s => 10 * (s.length : Int), 20⟩, ⟨fun s => 10 * (s.length : Int), 20⟩,
       ⟨fun s => 10 * (s.length : Int), 20⟩, ⟨fun s => 10 * (s.length : Int), 20⟩,
       ⟨fun s => 10 * (s.length : Int), 20⟩, ⟨fun s => 10 * (s.length : Int), 20⟩,
       ⟨fun _ => some 30, 60⟩⟩
      ⟨"mgdl".toList, 4, 10, 20, false, false⟩
      (some ⟨100, 0, "Flat".toList, "B".toList, none⟩) true false 60
      ⟨some "1 min ago".toList, some WHITE, some (fmt_bg "mgdl".toList 100),
       some (bg_color_val ⟨"mgdl".toList, 4, 10, 20, false, false⟩ 100),
       some ['x'], some WHITE, some [], some true, some ['0'], some (10, 8), true⟩
        = (_clear_rect ⟨480, 320, true⟩ d BLACK ++
            [Ev.text 10 297 "B".toList WHITE, Ev.flushRect d.x d.y d.w d.h],
           ⟨some "1 min ago".toList, some WHITE, some (fmt_bg "mgdl".toList 100),
       some (bg_color_val ⟨"mgdl".toList, 4, 10, 20, false, false⟩ 100),
       some "B".toList, some WHITE, some [], some true, some ['0'], some (10, 8), true⟩)) ∧
    (∃ d : Rect,
      d = unionR ⟨445, 291, 37, 36⟩ ⟨445, 284, 37, 36⟩ ∧
      draw_all_fields_if_needed ⟨480, 320, true⟩
      ⟨⟨fun s => 10 * (s.length : Int), 20⟩, ⟨fun s => 10 * (s.length : Int), 20⟩,
       ⟨fun s => 10 * (s.length : Int), 20⟩, ⟨fun s => 10 * (s.length : Int), 20⟩,
       ⟨fun s => 10 * (s.length : Int), 20⟩, ⟨fun s => 10 * (s.length : Int), 20⟩,
       ⟨fun _ => some 30, 60⟩⟩
      ⟨"mgdl".toList, 4, 10, 20, false, false⟩
      (some ⟨100, 0, "Flat".toList, "B".toList, some 5⟩) true false 60
      ⟨some "1 min ago".toList, some WHITE, some (fmt_bg "mgdl".toList 100),
       some (bg_color_val ⟨"mgdl".toList, 4, 10, 20, false, false⟩ 100),
       some "B".toList, some WHITE, some ('+' :: ['4']), some true, some ['0'], some (10, 8), true⟩
        = (_clear_rect ⟨480, 320, true⟩ d BLACK ++
            [Ev.text 451 292 ['+'] WHITE, Ev.text 466 299 ['5'] WHITE,
             Ev.flushRect d.x d.y d.w d.h],
           ⟨some "1 min ago".toList, some WHITE, some (fmt_bg "mgdl".toList 100),
       some (bg_color_val ⟨"mgdl".toList, 4, 10, 20, false, false⟩ 100),
       some "B".toList, some WHITE, some ('+' :: ['5']), some true, some ['0'], some (10, 8), true⟩)) ∧
    (∃ d : Rect,
      d = unionR ⟨10, 8, 10, 20⟩ ⟨10, 8, 10, 20⟩ ∧
      draw_all_fields_if_needed ⟨480, 320, true⟩
      ⟨⟨fun s => 10 * (s.length : Int), 20⟩, ⟨fun s => 10 * (s.length : Int), 20⟩,
       ⟨fun s => 10 * (s.length : Int), 20⟩, ⟨fun s => 10 * (s.length : Int), 20⟩,
       ⟨fun s => 10 * (s.length : Int), 20⟩, ⟨fun s => 10 * (s.length : Int), 20⟩,
       ⟨fun _ => some 30, 60⟩⟩
      ⟨"mgdl".toList, 4, 10, 20, false, false⟩
      (some ⟨100, 0, "Flat".toList, "B".toList, none⟩) true false 60
      ⟨some "1 min ago".toList, some WHITE, some (fmt_bg "mgdl".toList 100),
       some (bg_color_val ⟨"mgdl".toList, 4, 10, 20, false, false⟩ 100),
       some "B".toList, some WHITE, some [], some true, some [], some (10, 8), true⟩
        = ([Ev.fillRect 10 8 10 20 BLACK, Ev.fillRect 10 8 10 20 BLACK] ++
            [Ev.text 10 8 ['0'] GREEN] ++
            [Ev.flushRect d.x d.y d.w d.h],
           ⟨some "1 min ago".toList, some WHITE, some (fmt_bg "mgdl".toList 100),
       some (bg_color_val ⟨"mgdl".toList, 4, 10, 20, false, false⟩ 100),
       some "B".toList, some WHITE, some [], some true, some ['0'], some (10, 8), true⟩)) := by
  have hfmt : fmt_bg "mgdl".toList (100 : ℚ) = "100".toList := by
    have hr : roundHalfEven (100 : ℚ) = 100 := by norm_num [roundHalfEven]
    have hm : mgdlMode "mgdl".toList = true := by decide
    simp [fmt_bg, hm, hr, intToChars]
    decide
  have hfd : fmt_delta "mgdl".toList (some (5 : ℚ)) = '+' :: ['5'] := by
    have hr : roundHalfEven (5 : ℚ) = 5 := by norm_num [roundHalfEven]
    have hm : mgdlMode "mgdl".toList = true := by decide
    simp [fmt_delta, hm, hr]
    decide
  refine ⟨?_, ?_, ?_, ?_, ?_, ?_, ?_⟩
  · exact render_batched_flush_rule.1 ⟨480, 320, true⟩
      ⟨⟨fun s => 10 * (s.length : Int), 20⟩, ⟨fun s => 10 * (s.length : Int), 20⟩,
       ⟨fun s => 10 * (s.length : Int), 20⟩, ⟨fun s => 10 * (s.length : Int), 20⟩,
       ⟨fun s => 10 * (s.length : Int), 20⟩, ⟨fun s => 10 * (s.length : Int), 20⟩,
       ⟨fun _ => some 30, 60⟩⟩
      ⟨"mgdl".toList, 4, 10, 20, false, false⟩
      ⟨100, 0, "Flat".toList, "B".toList, none⟩ true false 60
      ⟨some "1 min ago".toList, some WHITE, some (fmt_bg "mgdl".toList 100),
       some (bg_color_val ⟨"mgdl".toList, 4, 10, 20, false, false⟩ 100),
       some "B".toList, some WHITE, some [], some true, some ['0'], some (10, 8), true⟩
       rfl rfl rfl rfl rfl rfl rfl rfl rfl rfl rfl
  · exact render_batched_flush_rule.2.1 ⟨480, 320, true⟩
      ⟨⟨fun s => 10 * (s.length : Int), 20⟩, ⟨fun s => 10 * (s.length : Int), 20⟩,
       ⟨fun s => 10 * (s.length : Int), 20⟩, ⟨fun s => 10 * (s.length : Int), 20⟩,
       ⟨fun s => 10 * (s.length : Int), 20⟩, ⟨fun s => 10 * (s.length : Int), 20⟩,
       ⟨fun _ => some 30, 60⟩⟩
      ⟨"mgdl".toList, 4, 10, 20, false, false⟩
      ⟨100, 0, "Flat".toList, "B".toList, none⟩ true false 60
      ⟨some ['x'], some WHITE, some (fmt_bg "mgdl".toList 100),
       some (bg_color_val ⟨"mgdl".toList, 4, 10, 20, false, false⟩ 100),
       some "B".toList, some WHITE, some [], some true, some ['0'], some (10, 8), true⟩
      ['x'] WHITE rfl rfl rfl rfl (fun hc => absurd hc.1 (by decide))
      rfl rfl rfl rfl rfl rfl rfl rfl
  · exact render_batched_flush_rule.2.2.1 ⟨480, 320, true⟩
      ⟨⟨fun s => 10 * (s.length : Int), 20⟩, ⟨fun s => 10 * (s.length : Int), 20⟩,
       ⟨fun s => 10 * (s.length : Int), 20⟩, ⟨fun s => 10 * (s.length : Int), 20⟩,
       ⟨fun s => 10 * (s.length : Int), 20⟩, ⟨fun s => 10 * (s.length : Int), 20⟩,
       ⟨fun _ => some 30, 60⟩⟩
      ⟨"mgdl".toList, 4, 10, 20, false, false⟩
      ⟨100, 0, "Flat".toList, "B".toList, none⟩ true false 60
      ⟨some "1 min ago".toList, some WHITE, some (fmt_bg "mgdl".toList 100),
       some (bg_color_val ⟨"mgdl".toList, 4, 10, 20, false, false⟩ 100),
       some "B".toList, some WHITE, some [], some false, some ['0'], some (10, 8), true⟩
      false rfl rfl rfl rfl rfl (by decide)
      rfl rfl rfl rfl rfl rfl rfl
  · exact render_batched_flush_rule.2.2.2.1 ⟨480, 320, true⟩
      ⟨⟨fun s => 10 * (s.length : Int), 20⟩, ⟨fun s => 10 * (s.length : Int), 20⟩,
       ⟨fun s => 10 * (s.length : Int), 20⟩, ⟨fun s => 10 * (s.length : Int), 20⟩,
       ⟨fun s => 10 * (s.length : Int), 20⟩, ⟨fun s => 10 * (s.length : Int), 20⟩,
       ⟨fun _ => some 30, 60⟩⟩
      ⟨"mgdl".toList, 4, 10, 20, false, false⟩
      ⟨100, 0, "Flat".toList, "B".toList, none⟩ true false 60
      ⟨some "1 min ago".toList, some WHITE, some "99".toList,
       some (bg_color_val ⟨"mgdl".toList, 4, 10, 20, false, false⟩ 100),
       some "B".toList, some WHITE, some [], some true, some ['0'], some (10, 8), true⟩
      "99".toList (bg_color_val ⟨"mgdl".toList, 4, 10, 20, false, false⟩ 100) rfl rfl rfl rfl rfl rfl rfl
      (fun hc => absurd hc.1 (by rw [hfmt]; decide))
      rfl rfl rfl rfl rfl
  · exact render_batched_flush_rule.2.2.2.2.1 ⟨480, 320, true⟩
      ⟨⟨fun s => 10 * (s.length : Int), 20⟩, ⟨fun s => 10 * (s.length : Int), 20⟩,
       ⟨fun s => 10 * (s.length : Int), 20⟩, ⟨fun s => 10 * (s.length : Int), 20⟩,
       ⟨fun s => 10 * (s.length : Int), 20⟩, ⟨fun s => 10 * (s.length : Int), 20⟩,
       ⟨fun _ => some 30, 60⟩⟩
      ⟨"mgdl".toList, 4, 10, 20, false, false⟩
      ⟨100, 0, "Flat".toList, "B".toList, none⟩ true false 60
      ⟨some "1 min ago".toList, some WHITE, some (fmt_bg "mgdl".toList 100),
       some (bg_color_val ⟨"mgdl".toList, 4, 10, 20, false, false⟩ 100),
       some ['x'], some WHITE, some [], some true, some ['0'], some (10, 8), true⟩
      ['x'] WHITE rfl rfl rfl rfl rfl rfl rfl rfl rfl
      (fun hc => absurd hc.1 (by decide)) rfl rfl rfl
  · exact render_batched_flush_rule.2.2.2.2.2.1 ⟨480, 320, true⟩
      ⟨⟨fun s => 10 * (s.length : Int), 20⟩, ⟨fun s => 10 * (s.length : Int), 20⟩,
       ⟨fun s => 10 * (s.length : Int), 20⟩, ⟨fun s => 10 * (s.length : Int), 20⟩,
       ⟨fun s => 10 * (s.length : Int), 20⟩, ⟨fun s => 10 * (s.length : Int), 20⟩,
       ⟨fun _ => some 30, 60⟩⟩
      ⟨"mgdl".toList, 4, 10, 20, false, false⟩
      ⟨100, 0, "Flat".toList, "B".toList, some 5⟩ true false 60
      ⟨some "1 min ago".toList, some WHITE, some (fmt_bg "mgdl".toList 100),
       some (bg_color_val ⟨"mgdl".toList, 4, 10, 20, false, false⟩ 100),
       some "B".toList, some WHITE, some ('+' :: ['4']), some true, some ['0'], some (10, 8), true⟩
      '+' '+' ['4'] ['5'] rfl rfl rfl rfl rfl rfl rfl rfl rfl rfl hfd (by decide) rfl rfl
  · exact render_batched_flush_rule.2.2.2.2.2.2 ⟨480, 320, true⟩
      ⟨⟨fun s => 10 * (s.length : Int), 20⟩, ⟨fun s => 10 * (s.length : Int), 20⟩,
       ⟨fun s => 10 * (s.length : Int), 20⟩, ⟨fun s => 10 * (s.length : Int), 20⟩,
       ⟨fun s => 10 * (s.length : Int), 20⟩, ⟨fun s => 10 * (s.length : Int), 20⟩,
       ⟨fun _ => some 30, 60⟩⟩
      ⟨"mgdl".toList, 4, 10, 20, false, false⟩
      ⟨100, 0, "Flat".toList, "B".toList, none⟩ true false 60
      ⟨some "1 min ago".toList, some WHITE, some (fmt_bg "mgdl".toList 100),
       some (bg_color_val ⟨"mgdl".toList, 4, 10, 20, false, false⟩ 100),
       some "B".toList, some WHITE, some [], some true, some [], some (10, 8), true⟩
      [] rfl rfl rfl rfl rfl rfl rfl rfl rfl rfl rfl (by decide) rfl


end IrisClassic
